import Mathlib

/-
  Verification development for the adaptive skill-analyzer engine
  (skill_core: rasch.py, engine.py, policy.py, scoring.py, config.py).

  Real-valued program quantities (Python floats) are modelled as real
  numbers; integer and boolean program state is modelled exactly.
  Ambient inputs (timestamps, the per-session PRNG, the external free-text
  grader) are made explicit parameters.
-/

namespace Skill

/-- rasch.py `_EPS = 1e-6`: small positive floor. -/
noncomputable def EPS : ℝ := 1 / 1000000

/-- config.py `RASCH_PRIOR_VAR = 1.0`. -/
noncomputable def RASCH_PRIOR_VAR : ℝ := 1

/-- config.py `RASCH_ETA = 1.0`. -/
noncomputable def RASCH_ETA : ℝ := 1

/-- config.py `LEVEL_MIN = -2`. -/
def LEVEL_MIN : ℤ := -2

/-- config.py `LEVEL_MAX = 2`. -/
def LEVEL_MAX : ℤ := 2

/-- engine.py `_clamp_level`: clamp a ladder level into the configured range. -/
def clampLevel (level : ℤ) : ℤ := max LEVEL_MIN (min LEVEL_MAX level)

/-- A promotion/demotion rule: `need` correct (resp. missed) answers out of
a `window` of recent answers (config.py PASS_RULE_SHORT etc.). -/
structure PassRule where
  need : ℕ
  window : ℕ
deriving DecidableEq

/-- config.py `PASS_RULE_SHORT = dict need 2 window 3`. -/
def PASS_RULE_SHORT : PassRule := ⟨2, 3⟩

/-- config.py `PASS_RULE_LONG = dict need 3 window 4`. -/
def PASS_RULE_LONG : PassRule := ⟨3, 4⟩

/-- config.py `DEMOTE_RULE = dict need 2 window 3`. -/
def DEMOTE_RULE : PassRule := ⟨2, 3⟩

/-- engine.py `_RECENT_WINDOW_LIMIT`: the rolling window is trimmed to the
largest of the short, long and demotion window sizes (= 4). -/
def RECENT_WINDOW_LIMIT : ℕ :=
  max (max PASS_RULE_SHORT.window PASS_RULE_LONG.window) DEMOTE_RULE.window

/-- The two run types accepted by the engine (`assert run_type in ("short","long")`). -/
inductive RunType
  | short
  | long
deriving DecidableEq

/-- config.py `SE_TARGET_SHORT = 0.35`. -/
noncomputable def SE_TARGET_SHORT : ℝ := 0.35

/-- config.py `SE_TARGET_LONG = 0.25`. -/
noncomputable def SE_TARGET_LONG : ℝ := 0.25

/-- config.py `OBJ_MIN_SHORT = 4`. -/
def OBJ_MIN_SHORT : ℕ := 4

/-- config.py `OBJ_MAX_SHORT = 12`. -/
def OBJ_MAX_SHORT : ℕ := 12

/-- config.py `OBJ_MIN_LONG = 8`. -/
def OBJ_MIN_LONG : ℕ := 8

/-- config.py `OBJ_MAX_LONG = 16`. -/
def OBJ_MAX_LONG : ℕ := 16

/-- config.py `CAP_SHORT = 104` (step budget, short run). -/
def CAP_SHORT : ℕ := 104

/-- config.py `CAP_LONG = 160` (step budget, long run). -/
def CAP_LONG : ℕ := 160

/-- config.py `SR_PER_DOMAIN_SHORT = 1`. -/
def SR_PER_DOMAIN_SHORT : ℕ := 1

/-- config.py `SR_PER_DOMAIN_LONG = 2`. -/
def SR_PER_DOMAIN_LONG : ℕ := 2

/-- config.py `OPEN_ENABLED_LONG = True`. -/
def OPEN_ENABLED_LONG : Bool := true

/-- config.py `OPEN_GATE1_MIN_OBJ = 4`. -/
def OPEN_GATE1_MIN_OBJ : ℕ := 4

/-- config.py `OPEN_GATE1_SE_MAX = 0.45`. -/
noncomputable def OPEN_GATE1_SE_MAX : ℝ := 0.45

/-- config.py `OPEN_GATE2_SE_MAX = 0.30`. -/
noncomputable def OPEN_GATE2_SE_MAX : ℝ := 0.30

/-- config.py `OPEN_GATE2_MIN_R1 = 0.60`. -/
noncomputable def OPEN_GATE2_MIN_R1 : ℝ := 0.60

/-- config.py `A_OPEN = 0.50` (discrimination used for OPEN items). -/
noncomputable def A_OPEN : ℝ := 0.50

/-- config.py `ETA_OPEN = 0.10`. -/
noncomputable def ETA_OPEN : ℝ := 0.10

/-- config.py `DELTA_OPEN_MAX = 0.30`. -/
noncomputable def DELTA_OPEN_MAX : ℝ := 0.30

/-- config.py open-information cap ratio constant (value 0.20): the cumulative
free-text information of a domain may not exceed this fraction of its
cumulative objective information. -/
noncomputable def OPEN_INFO_CAP_R : ℝ := 0.20

/-- config.py `OPEN_MIN_WORDS = 80`. -/
def OPEN_MIN_WORDS : ℕ := 80

/-- config.py `OPEN_MIN_RUBRIC = 0.60`. -/
noncomputable def OPEN_MIN_RUBRIC : ℝ := 0.60

/-- config.py `OPEN_LATENCY_P10_MS = 1500`. -/
noncomputable def OPEN_LATENCY_P10_MS : ℝ := 1500

/-- config.py `OPEN_Z_SHIFT = 0.50`. -/
noncomputable def OPEN_Z_SHIFT : ℝ := 0.50

/-- config.py `OPEN_LEVELS = (-1, 0, 1)`, already sorted as the policy sorts it. -/
def openLevels : List ℤ := [-1, 0, 1]

/-- rasch.py `sigma`: the logistic function, with the positive and negative
halves of the real line handled separately as in the source. -/
noncomputable def sigma (x : ℝ) : ℝ :=
  if 0 ≤ x then 1 / (1 + Real.exp (-x)) else Real.exp x / (1 + Real.exp x)

/-- rasch.py `rasch_p theta b = sigma (theta - b)`. -/
noncomputable def rasch_p (theta b : ℝ) : ℝ := sigma (theta - b)

/-- rasch.py `item_info`: Fisher information `a^2 p (1-p)`, floored at 0. -/
noncomputable def item_info (theta b a : ℝ) : ℝ :=
  max ((a * a) * rasch_p theta b * (1 - rasch_p theta b)) 0

/-- rasch.py `map_update`: one damped Newton/MAP step for the person ability. -/
noncomputable def map_update (theta b : ℝ) (correct : Bool) (a prior_var eta : ℝ) : ℝ :=
  let p := rasch_p theta b
  let grad := ((if correct then 1 else 0) - p) * a
  let info := (a * a) * p * (1 - p) + 1 / max prior_var EPS
  let step := eta * grad / max info EPS
  theta + step

/-- rasch.py `se_from_info`: standard error from accumulated information. -/
noncomputable def se_from_info (info_total : ℝ) : ℝ :=
  1 / Real.sqrt (max info_total EPS)

/-- One seen/correct tally for a ladder level (engine.py `level_stats` values). -/
structure LevelStat where
  seen : ℕ
  correct : ℕ
deriving DecidableEq

/-- One record of engine.py `DomainState.open_contrib`: the bookkeeping entry
appended by `_apply_open_step` (keys b, r, mu, dtheta, scaled and the optional
ignored / eta_halved flags). -/
structure OpenContrib where
  b : ℤ
  r : ℝ
  mu : ℝ
  dtheta : ℝ
  scaled : Bool
  ignored : Option String
  eta_halved : Bool

/-- engine.py `DomainState`: the per-domain mutable record.  `level_stats` is
modelled as a total function from levels to tallies (the Python dict with
`setdefault` behaves as a total zero-defaulted map). -/
structure DomainState where
  mcq_correct : ℕ
  mcq_total : ℕ
  sjt_sum : ℝ
  sjt_total : ℕ
  open_sum : ℝ
  open_total : ℕ
  sr_sum : ℝ
  sr_total : ℕ
  max_diff : ℤ
  theta : ℝ
  info_total : ℝ
  se : ℝ
  level : ℤ
  level_stats : ℤ → LevelStat
  recent_window : List Bool
  b_peak : ℤ
  b_stable : ℤ
  obj_count : ℕ
  sr_count : ℕ
  open_count : ℕ
  open_contrib : List OpenContrib
  obj_done : Bool
  level_entry_seen : ℕ
  obj_info_total : ℝ
  open_info_total : ℝ
  sr_trap_count : ℕ
  sr_mirror_ok : Bool

/-- The dataclass defaults of engine.py `DomainState`. -/
noncomputable def defaultDomainState : DomainState where
  mcq_correct := 0
  mcq_total := 0
  sjt_sum := 0
  sjt_total := 0
  open_sum := 0
  open_total := 0
  sr_sum := 0
  sr_total := 0
  max_diff := -3
  theta := 0
  info_total := 1
  se := 1
  level := 0
  level_stats := fun _ => ⟨0, 0⟩
  recent_window := []
  b_peak := 0
  b_stable := 0
  obj_count := 0
  sr_count := 0
  open_count := 0
  open_contrib := []
  obj_done := false
  level_entry_seen := 0
  obj_info_total := 0
  open_info_total := 0
  sr_trap_count := 0
  sr_mirror_ok := true

/-- engine.py `_run_parameters`: pass rule for the run type (any run type
other than "short" gets the long parameters). -/
def passRule : RunType → PassRule
  | .short => PASS_RULE_SHORT
  | .long => PASS_RULE_LONG

/-- Python `lst[-n:]`: the last `n` elements of a list. -/
def takeLast {α : Type} (n : ℕ) (l : List α) : List α := l.drop (l.length - n)

/-- engine.py `_apply_objective_step` lines 211-213: the rolling window after
appending the new outcome and trimming the front to `_RECENT_WINDOW_LIMIT`
(used in the same-level branch). -/
def objUpdatedWindow (ds : DomainState) (correct : Bool) : List Bool :=
  let appended := ds.recent_window ++ [correct]
  if RECENT_WINDOW_LIMIT < appended.length then appended.tail else appended

/-- engine.py `_apply_objective_step`: Rasch update, per-level tallies and
ladder promotion/demotion for one objective (MCQ/SJT) answer.  Returns the
updated domain state (the Python function mutates `domain_state` in place and
additionally returns a metrics dict used only for logging). -/
noncomputable def apply_objective_step (ds : DomainState) (level_bucket : ℤ)
    (correct : Bool) (rt : RunType) (target_level : Option ℤ) : DomainState :=
  let prev_level := ds.level
  let bucket := clampLevel level_bucket
  let theta_after := map_update ds.theta bucket correct 1 RASCH_PRIOR_VAR RASCH_ETA
  let info_delta := item_info theta_after bucket 1
  let info_total1 := max (ds.info_total + info_delta) EPS
  let obj_info_total1 := max (ds.obj_info_total + info_delta) 0
  let se1 := se_from_info (info_total1 + ds.open_info_total)
  let obj_count1 := ds.obj_count + 1
  let stats1 : ℤ → LevelStat := fun l =>
    if l = bucket then
      ⟨(ds.level_stats bucket).seen + 1,
       (ds.level_stats bucket).correct + (if correct then 1 else 0)⟩
    else ds.level_stats l
  let window_level := target_level.getD prev_level
  let same_level := window_level = prev_level
  let window1 := if same_level then objUpdatedWindow ds correct else [correct]
  let entry1 := if same_level then ds.level_entry_seen + 1 else 1
  let pr := passRule rt
  let promo_window := takeLast pr.window window1
  let promoted := same_level ∧ pr.window ≤ promo_window.length ∧
    pr.need ≤ promo_window.count true
  let demo_window := takeLast DEMOTE_RULE.window window1
  let demoted := same_level ∧ ¬ promoted ∧ DEMOTE_RULE.window ≤ demo_window.length ∧
    DEMOTE_RULE.need ≤ DEMOTE_RULE.window - demo_window.count true ∧ 1 < entry1
  let new_level :=
    if promoted then clampLevel (prev_level + 1)
    else if demoted then clampLevel (prev_level - 1)
    else prev_level
  let b_stable1 := if promoted then max ds.b_stable prev_level else ds.b_stable
  let window2 := if promoted ∨ demoted then [] else window1
  let entry2 := if promoted ∨ demoted then 0 else entry1
  { ds with
    theta := theta_after
    info_total := info_total1
    obj_info_total := obj_info_total1
    se := se1
    obj_count := obj_count1
    level_stats := stats1
    recent_window := window2
    level_entry_seen := entry2
    b_stable := b_stable1
    level := new_level
    b_peak := if obj_count1 = 1 then new_level else max ds.b_peak new_level }

/-- engine.py `_apply_open_step`: bounded Rasch-style residual update for one
OPEN (free-text) answer, with the latency guard, the halved step for short or
low-confidence answers, the symmetric delta clamp, and the information cap
against the objective total.  `rubric_conf` mirrors the optional grader
confidence argument. -/
noncomputable def apply_open_step (ds : DomainState) (difficulty : ℤ) (score : ℝ)
    (word_count : ℕ) (latency_ms : ℝ) (rubric_conf : Option ℝ) : DomainState :=
  let bucket := max (min difficulty 1) (-1)
  let theta_before := ds.theta
  let mu := sigma (theta_before - (bucket : ℝ))
  if latency_ms < OPEN_LATENCY_P10_MS then
    { ds with
      open_count := ds.open_count + 1
      open_contrib := ds.open_contrib ++
        [⟨bucket, score, mu, 0, false, some "latency", false⟩] }
  else
    let eta_halved : Bool := decide (word_count < OPEN_MIN_WORDS) ||
      (match rubric_conf with
        | some c => decide (c < OPEN_MIN_RUBRIC)
        | none => false)
    let eta := if eta_halved then ETA_OPEN * 0.5 else ETA_OPEN
    let info_mu := mu * (1 - mu)
    let denom := max info_mu EPS
    let dtheta0 := eta * (score - mu) / denom
    let dtheta1 := max (min dtheta0 DELTA_OPEN_MAX) (-DELTA_OPEN_MAX)
    let open_info_delta0 := (A_OPEN * A_OPEN) * info_mu
    let open_total_candidate := ds.open_info_total + open_info_delta0
    let cap := OPEN_INFO_CAP_R * max ds.obj_info_total EPS
    let scale0 := if cap < open_total_candidate ∧ 0 < cap then
      (if 0 < open_total_candidate then cap / open_total_candidate else 0) else 1
    let scale := max (min scale0 1) 0
    let scaled : Bool := decide (cap < open_total_candidate ∧ 0 < cap) && decide (scale < 1)
    let dtheta2 := if scaled then dtheta1 * scale else dtheta1
    let open_info_delta1 := if scaled then open_info_delta0 * scale else open_info_delta0
    let open_info_total1 := min (ds.open_info_total + open_info_delta1) cap
    { ds with
      theta := theta_before + dtheta2
      open_info_total := open_info_total1
      se := se_from_info (ds.info_total + open_info_total1)
      open_count := ds.open_count + 1
      open_contrib := ds.open_contrib ++
        [⟨bucket, score, mu, dtheta2, scaled, none, eta_halved⟩] }

/-- A runtime value sitting in `Answer.value`: the API layer submits either an
integer index or a free-text string, and `None` is possible for a missing
field.  Python `int(...)` on such a value can raise, which `pyIntOfValue`
models with `Except`. -/
inductive Value
  | vInt (n : ℤ)
  | vStr (s : String)
  | vNone
deriving DecidableEq

/-- Python `int(val)` on an answer value: integers pass through, strings are
parsed as integer literals (raising `ValueError` otherwise), `None` raises
`TypeError`. -/
def pyIntOfValue : Value → Except String ℤ
  | .vInt n => .ok n
  | .vStr s =>
    match (s.trim).toInt? with
    | some n => .ok n
    | none => .error "ValueError: invalid literal for int()"
  | .vNone => .error "TypeError: int() argument must not be None"

/-- Python truthiness of an answer value (`val or ...`). -/
def pyTruthy : Value → Bool
  | .vInt n => n != 0
  | .vStr s => s != ""
  | .vNone => false

/-- Python `str(val)` of an answer value. -/
def pyStr : Value → String
  | .vInt n => toString n
  | .vStr s => s
  | .vNone => "None"

/-- Python `str.upper()` (character-wise uppercase; item kind strings are
ASCII). -/
def pyUpper (s : String) : String := String.mk (s.data.map Char.toUpper)

/-- types.py `Item`: the immutable item definition (all dataclass fields). -/
structure Item where
  id : String
  domain : String
  type : String
  text : String
  options : Option (List String)
  correct : Option ℤ
  weight : ℝ
  is_trap : Bool
  mirror_of : Option String
  trap_flag_index : Option ℤ
  difficulty : ℤ
  discrimination : ℝ
  variant_group : Option String

/-- types.py `Answer`: item identifier, submitted value, optional
response-time in seconds. -/
structure Answer where
  item_id : String
  value : Value
  rt_sec : Option ℝ

/-- engine.py `_is_negative_sr_item`: the dataclass `Item` of types.py has no
`polarity` attribute, so the getattr polarity probe is always `None` and only
the `_neg` id suffix decides reverse scoring. -/
def is_negative_sr_item (it : Item) : Bool := it.id.endsWith "_neg"

/-- engine.py `_sr_normalized_value`: raw 0..4 value clamped, mapped to a 1..5
Likert value and reverse-scored for negative-polarity items; `none` when
Python `int(...)` would raise. -/
def sr_normalized_value (it : Item) (a : Answer) : Option ℤ :=
  match pyIntOfValue a.value with
  | .error _ => none
  | .ok raw =>
    let raw1 := if raw < 0 then 0 else raw
    let raw2 := if 4 < raw1 then 4 else raw1
    let likert := raw2 + 1
    some (if is_negative_sr_item it then 6 - likert else likert)

/-- engine.py `_sr_trap_failed`. -/
def sr_trap_failed (it : Item) (a : Answer) : Bool :=
  if !it.is_trap then false
  else
    match pyIntOfValue a.value with
    | .error _ => false
    | .ok v =>
      match it.trap_flag_index with
      | some flag => decide (v = flag)
      | none => decide (v = 5)

/-- engine.py `AdaptiveSession._update_sr_reliability`.  The mirror-map lookup
and the answers-dict lookup are passed in as the explicit `partner` argument
(the partner item together with its recorded answer, when both exist). -/
def update_sr_reliability (ds : DomainState) (it : Item) (a : Answer)
    (partner : Option (Item × Answer)) : DomainState :=
  let ds1 := if sr_trap_failed it a then
    { ds with sr_trap_count := ds.sr_trap_count + 1 } else ds
  match partner with
  | none => ds1
  | some (oit, oa) =>
    match sr_normalized_value it a, sr_normalized_value oit oa with
    | some cv, some pv =>
      if 3 ≤ |cv - pv| then { ds1 with sr_mirror_ok := false } else ds1
    | _, _ => ds1

/-- engine.py `answer_current`, SR branch (lines 764-769): the whole effect of
an SR answer on the domain state is the three self-report tallies plus the
reliability bookkeeping of `_update_sr_reliability`. -/
noncomputable def apply_sr_step (ds : DomainState) (it : Item) (a : Answer)
    (credit : ℝ) (partner : Option (Item × Answer)) : DomainState :=
  update_sr_reliability
    { ds with
      sr_total := ds.sr_total + 1
      sr_sum := ds.sr_sum + credit
      sr_count := ds.sr_count + 1 }
    it a partner

/-- engine.py `_theta_to_norm_score`.  The repository ships no
`calibration_v2.json` next to engine.py, so `_load_calibration_v2` always
returns its hard-coded fallback (floor 10, ceil 100, min_span 40, empty
per-domain table); the per-domain worst/best anchors therefore equal the
global floor/ceil for every domain. -/
noncomputable def theta_to_norm_score (theta : ℝ) (domain : String) : ℝ :=
  let base_prob := sigma theta
  let base_scale := base_prob * 10
  let floorv : ℝ := 10
  let ceilv : ℝ := 100
  let min_span : ℝ := 40
  let worst : ℝ := floorv
  let best : ℝ := ceilv
  let best1 := if best ≤ worst then worst + min_span else best
  let span0 := max (best1 - worst) min_span
  let span := min span0 (max (ceilv - floorv) min_span)
  let score := worst + (base_scale / 10) * span
  max floorv (min ceilv score)

/-- engine.py `_composite`, first component: the calibrated domain score is
`_theta_to_norm_score(st.theta, domain)`; the accompanying se and the
obj/open/sr percentage parts are reporting-only. -/
noncomputable def composite_score (domain : String) (st : DomainState) : ℝ :=
  theta_to_norm_score st.theta domain

/-- engine.py `finalize`: the per-domain score after the A-cap (score capped
at 80 when the domain answered zero OPEN items). -/
noncomputable def final_norm_score (domain : String) (st : DomainState) : ℝ :=
  let score := composite_score domain st
  if st.open_total = 0 ∧ 80 < score then 80 else score

/-- One objective answer as fed to `_apply_objective_step`: the served item's
clamped difficulty bucket, correctness, and the policy's target-level
annotation. -/
structure ObjAnswer where
  bucket : ℤ
  correct : Bool
  target : Option ℤ

/-- Folding form of `_apply_objective_step` used to speak about sequences of
objective answers. -/
noncomputable def applyObjAnswer (rt : RunType) (ds : DomainState) (a : ObjAnswer) :
    DomainState :=
  apply_objective_step ds a.bucket a.correct rt a.target

/-- One accepted answer that touches the information ledger: either an
objective (MCQ/SJT) answer via `_apply_objective_step` or an OPEN answer via
`_apply_open_step`. -/
inductive AnswerStep
  | obj (bucket : ℤ) (correct : Bool) (target : Option ℤ)
  | free (difficulty : ℤ) (score : ℝ) (word_count : ℕ) (latency_ms : ℝ)
      (rubric_conf : Option ℝ)

/-- Dispatch of one `AnswerStep` onto the domain state. -/
noncomputable def applyAnswerStep (rt : RunType) (ds : DomainState) :
    AnswerStep → DomainState
  | .obj b c t => apply_objective_step ds b c rt t
  | .free d s w l r => apply_open_step ds d s w l r

/-- The bounded-influence invariant of `_apply_open_step`: cumulative
free-text information never exceeds the cap ratio times the (epsilon-floored)
cumulative objective information. -/
def openInfoCapInv (ds : DomainState) : Prop :=
  ds.open_info_total ≤ OPEN_INFO_CAP_R * max ds.obj_info_total EPS

/-- The engine keeps `se` equal to `se_from_info` of the current information
ledger (established at `_apply_objective_step` / `_apply_open_step` exits and
by the dataclass defaults). -/
def seInfoInv (ds : DomainState) : Prop :=
  ds.se = se_from_info (ds.info_total + ds.open_info_total)

/-- scoring.py `_clamp01` (the input here is already a real number, so the
float-conversion guard of the source cannot fail). -/
noncomputable def clamp01 (x : ℝ) : ℝ :=
  if x < 0 then 0 else if 1 < x then 1 else x

/-- The meta dictionary returned by scoring.py next to the credit, one
constructor per return site. -/
inductive ScoreMeta
  | mcq (correct_idx chosen_idx : ℤ)
  | sr (polarity_neg : Bool) (raw_idx mapped_idx : ℤ)
  | openGuard (tokens : ℕ)
  | openScored (score : ℝ) (used_prompt_stub : Bool)
  | unknown (t : String)

/-- Number of regex word-token matches of the source (maximal runs of
alphanumeric characters or underscores). -/
def wordCount (s : String) : ℕ :=
  ((s.split (fun c => !(c.isAlphanum || c == '_'))).filter (fun w => w ≠ "")).length

/-- scoring.py `_prompt_stub`: of the probed attributes (prompt, question,
stem, text, title) only `text` exists on the types.py dataclass, so the result
is the stripped text when non-empty, else the empty string. -/
def prompt_stub (it : Item) : String :=
  let v := it.text.trim
  if v = "" then "" else v

/-- scoring.py `_score_mcq`: full credit iff the chosen index equals the
answer key (`item.correct or 0`). -/
noncomputable def score_mcq (it : Item) (value_idx : ℤ) : ℝ × ScoreMeta :=
  let correct_idx := it.correct.getD 0
  ((if value_idx = correct_idx then 1 else 0), .mcq correct_idx value_idx)

/-- scoring.py `_score_sjt`: the probed `keys`, `sjt_keys`, `best_index`,
`good_index` and `poor_index` attributes are not fields of the types.py
`Item` dataclass, so every getattr probe yields `None` and the function always
reaches its final fallback, exact-match `_score_mcq` scoring. -/
noncomputable def score_sjt (it : Item) (value_idx : ℤ) : ℝ × ScoreMeta :=
  score_mcq it value_idx

/-- scoring.py `_score_sr`: clamp the raw 0..4 value, reverse for
negative-polarity items, normalize to 0..1. -/
noncomputable def score_sr (it : Item) (value_idx : ℤ) : ℝ × ScoreMeta :=
  let neg := is_negative_sr_item it
  let v1 := if value_idx < 0 then 0 else value_idx
  let v2 := if 4 < v1 then 4 else v1
  let v3 := if neg then 4 - v2 else v2
  (clamp01 ((v3 : ℝ) / 4), .sr neg value_idx v3)

/-- scoring.py `_score_open`: degenerate answers (under six word tokens, or
matching the deflection regex, given here as the predicate `deflect`) get zero
credit without invoking the grader; otherwise the external grading
collaborator `grader` (llm_bridge.score_open: item id, answer text, prompt
stub) is called and its result clamped to 0..1. -/
noncomputable def score_open_item (it : Item) (text : String)
    (grader : String → String → String → ℝ) (deflect : String → Bool) :
    ℝ × ScoreMeta :=
  let toks := wordCount text
  if toks < 6 ∨ deflect text then (0, .openGuard toks)
  else
    let prompt := prompt_stub it
    let s := grader it.id text prompt
    (clamp01 s, .openScored (clamp01 s) (prompt != ""))

/-- scoring.py `score_item`: dispatch on the uppercased item kind.  Python
`int(val)` can raise for MCQ/SJT/SR, which surfaces as `Except.error`; an
unknown kind yields zero credit with its own meta tag. -/
noncomputable def score_item (it : Item) (a : Answer)
    (grader : String → String → String → ℝ) (deflect : String → Bool) :
    Except String (ℝ × ScoreMeta) :=
  let t := pyUpper it.type
  if t = "MCQ" then (pyIntOfValue a.value).map (fun v => score_mcq it v)
  else if t = "SJT" then (pyIntOfValue a.value).map (fun v => score_sjt it v)
  else if t = "SR" then (pyIntOfValue a.value).map (fun v => score_sr it v)
  else if t = "OPEN" then
    .ok (score_open_item it (if pyTruthy a.value then pyStr a.value else "") grader deflect)
  else .ok (0, .unknown (if t = "" then "UNKNOWN" else t))

/-- question_bank.py `DOMAINS`: the fixed domain list. -/
def DOMAINS : List String :=
  ["Analytical", "Mathematical", "Verbal", "Memory", "Spatial", "Creativity",
   "Strategy", "Social"]

/-- policy.py `DomainHistory`: the per-domain slice of the policy snapshot. -/
structure DomainHistory where
  asked_ids : List String
  sr_count : ℕ
  obj_count : ℕ
  open_count : ℕ
  obj_correct_frac : ℝ
  level : ℤ
  level_stats : ℤ → LevelStat
  recent_window : List Bool
  level_entry_seen : ℕ
  obj_done : Bool
  open_contrib : List OpenContrib
  obj_info_total : ℝ
  open_info_total : ℝ

/-- The dataclass defaults of policy.py `DomainHistory`. -/
noncomputable def defaultDomainHistory : DomainHistory where
  asked_ids := []
  sr_count := 0
  obj_count := 0
  open_count := 0
  obj_correct_frac := 0
  level := 0
  level_stats := fun _ => ⟨0, 0⟩
  recent_window := []
  level_entry_seen := 0
  obj_done := false
  open_contrib := []
  obj_info_total := 0
  open_info_total := 0

/-- policy.py `PolicyState`: the read-only snapshot the scheduler sees each
turn.  The Python dicts keyed by domain (`theta`, `se`, `hist`) are modelled
as total functions; the engine populates every domain, so the `.get` defaults
of the source are never exercised. -/
structure PolicyState where
  run_type : RunType
  theta : String → ℝ
  se : String → ℝ
  asked : List String
  seen_variant_groups : List String
  step : ℕ
  hist : String → DomainHistory
  info_history : List ℝ
  mirrored_domains_planned : List String
  last_domain_id : Option String
  last_item_type : Option String

/-- policy.py `QuestionPolicy`: the item list and normalized run type (the
per-session `random.Random` source is modelled as an explicit `pick` argument
to the selection functions, and the mutable `_last_pick_was_sr` flag is
threaded explicitly through `next_item`). -/
structure Policy where
  items : List Item
  run_type : RunType

/-- policy.py `QuestionPolicy._obj_index`: MCQ/SJT items of a domain bucketed
by clamped difficulty (built by the constructor loop; lookup order equals
bank order, i.e. a filter). -/
def objIndexPool (items : List Item) (d : String) (lvl : ℤ) : List Item :=
  items.filter (fun it =>
    it.domain = d ∧ (it.type = "MCQ" ∨ it.type = "SJT") ∧ clampLevel it.difficulty = lvl)

/-- policy.py `QuestionPolicy._sr_index`. -/
def srIndexPool (items : List Item) (d : String) : List Item :=
  items.filter (fun it => it.domain = d ∧ it.type = "SR")

/-- policy.py constructor: OPEN item difficulties are clamped into the
`OPEN_LEVELS` range (-1..1). -/
def openClampLevel (raw : ℤ) : ℤ := max (-1) (min 1 raw)

/-- policy.py `QuestionPolicy._open_index`. -/
def openIndexPool (items : List Item) (d : String) (lvl : ℤ) : List Item :=
  items.filter (fun it =>
    it.domain = d ∧ it.type = "OPEN" ∧ openClampLevel it.difficulty = lvl)

/-- policy.py `QuestionPolicy._is_unseen`: the item was not asked and its
variant group (when truthy, i.e. a non-empty string) was not seen. -/
def isUnseen (it : Item) (st : PolicyState) : Bool :=
  if st.asked.contains it.id then false
  else
    match it.variant_group with
    | some vg => !(vg != "" && st.seen_variant_groups.contains vg)
    | none => true

/-- `rng.choice(options)` modelled by an explicit index chooser: for a
non-empty list it returns some element of the list, for the empty list `none`
(every call site in the source guards on non-emptiness). -/
def rngChoice (pick : List Item → ℕ) (options : List Item) : Option Item :=
  options.get? (pick options % options.length)

/-- policy.py `QuestionPolicy._bounds`: (se_target, obj_min, obj_max,
sr_per_domain) for the run type. -/
noncomputable def bounds : RunType → ℝ × ℕ × ℕ × ℕ
  | .short => (SE_TARGET_SHORT, OBJ_MIN_SHORT, OBJ_MAX_SHORT, SR_PER_DOMAIN_SHORT)
  | .long => (SE_TARGET_LONG, OBJ_MIN_LONG, OBJ_MAX_LONG, SR_PER_DOMAIN_LONG)

/-- policy.py `QuestionPolicy._cap_for`. -/
def capFor : RunType → ℕ
  | .short => CAP_SHORT
  | .long => CAP_LONG

/-- policy.py `QuestionPolicy._domain_index`: position of a domain in
`DOMAINS`. -/
def domainIndex (d : String) : ℕ := DOMAINS.indexOf d

/-- The rotation tie-break used in the sort keys: 0 when the domain equals the
last served domain, -1 otherwise. -/
def rotationKey (st : PolicyState) (dom : String) : ℤ :=
  if st.last_domain_id = some dom then 0 else -1

/-- Lexicographic order on the 4-tuples Python `sorted` compares. -/
def lex4 (a b : ℝ × ℕ × ℤ × ℕ) : Prop :=
  a.1 < b.1 ∨ (a.1 = b.1 ∧ (a.2.1 < b.2.1 ∨ (a.2.1 = b.2.1 ∧
    (a.2.2.1 < b.2.2.1 ∨ (a.2.2.1 = b.2.2.1 ∧ a.2.2.2 ≤ b.2.2.2)))))

/-- Lexicographic order on the 3-tuples of `_sr_domain`. -/
def lex3 (a b : ℕ × ℤ × ℕ) : Prop :=
  a.1 < b.1 ∨ (a.1 = b.1 ∧ (a.2.1 < b.2.1 ∨ (a.2.1 = b.2.1 ∧ a.2.2 ≤ b.2.2)))

/-- Lexicographic order on the 2-tuples of `_open_level_order`. -/
def lex2 (a b : ℤ × ℤ) : Prop :=
  a.1 < b.1 ∨ (a.1 = b.1 ∧ a.2 ≤ b.2)

noncomputable instance lex4.instDecidable : ∀ a b, Decidable (lex4 a b) :=
  fun a b => by unfold lex4; infer_instance

instance lex3.instDecidable : ∀ a b, Decidable (lex3 a b) :=
  fun a b => by unfold lex3; infer_instance

instance lex2.instDecidable : ∀ a b, Decidable (lex2 a b) :=
  fun a b => by unfold lex2; infer_instance

/-- policy.py `QuestionPolicy._sort_candidates` key: (-se, objective count,
rotation, stable domain order). -/
noncomputable def candKey (st : PolicyState) (dom : String) : ℝ × ℕ × ℤ × ℕ :=
  (-(st.se dom), (st.hist dom).obj_count, rotationKey st dom, domainIndex dom)

/-- policy.py `QuestionPolicy._sort_candidates` (Python timsort is modelled by
a stable insertion sort over the same lexicographic key order). -/
noncomputable def sortCandidates (domains : List String) (st : PolicyState) :
    List String :=
  List.insertionSort (fun a b => lex4 (candKey st a) (candKey st b)) domains

/-- policy.py `QuestionPolicy._level_order`: outward search order from the
base level, deduplicated after clamping. -/
def levelOrder (base : ℤ) : List ℤ :=
  [0, 1, -1, 2, -2].foldl (fun acc d =>
    let lvl := clampLevel (base + d)
    if acc.contains lvl then acc else acc ++ [lvl]) []

/-- policy.py `QuestionPolicy._objective_item`: search difficulty buckets
outward from the domain's current level and randomly pick among unseen
candidates at the first non-empty bucket. -/
def objective_item (p : Policy) (domain : String) (st : PolicyState)
    (pick : List Item → ℕ) : Option Item :=
  let base := (st.hist domain).level
  (levelOrder base).findSome? (fun lvl =>
    rngChoice pick ((objIndexPool p.items domain lvl).filter (fun it => isUnseen it st)))

/-- policy.py `QuestionPolicy._serve_objective`. -/
def serve_objective (p : Policy) (domains : List String) (st : PolicyState)
    (pick : List Item → ℕ) : Option Item :=
  domains.findSome? (fun d => objective_item p d st pick)

/-- policy.py `QuestionPolicy._fallback_objective`: any unseen objective item,
scanning domains in stable order and levels from LEVEL_MIN to LEVEL_MAX. -/
def fallback_objective (p : Policy) (st : PolicyState) (pick : List Item → ℕ) :
    Option Item :=
  DOMAINS.findSome? (fun d =>
    ([-2, -1, 0, 1, 2] : List ℤ).findSome? (fun lvl =>
      rngChoice pick ((objIndexPool p.items d lvl).filter (fun it => isUnseen it st))))

/-- policy.py `QuestionPolicy._sr_available`. -/
def sr_available (p : Policy) (d : String) (st : PolicyState) : Bool :=
  (srIndexPool p.items d).any (fun it => isUnseen it st)

/-- policy.py `QuestionPolicy._pick_sr_item`. -/
def pick_sr_item (p : Policy) (domain : String) (st : PolicyState)
    (pick : List Item → ℕ) : Option Item :=
  rngChoice pick ((srIndexPool p.items domain).filter (fun it => isUnseen it st))

/-- policy.py `QuestionPolicy._sr_domain` sort key. -/
def srKey (st : PolicyState) (dom : String) : ℕ × ℤ × ℕ :=
  ((st.hist dom).sr_count, rotationKey st dom, domainIndex dom)

/-- policy.py `QuestionPolicy._sr_domain`: the under-quota domain (with its
objective minimum met and an unseen SR item available) with the fewest SR
answers, tie-broken by rotation and stable order. -/
def sr_domain (p : Policy) (st : PolicyState) (obj_min sr_required : ℕ) :
    Option String :=
  let domains := DOMAINS.filter (fun d =>
    obj_min ≤ (st.hist d).obj_count ∧ (st.hist d).sr_count < sr_required ∧
      sr_available p d st = true)
  if domains = [] then none
  else (List.insertionSort (fun a b => lex3 (srKey st a) (srKey st b)) domains).head?

/-- policy.py `QuestionPolicy._open_level_order`: OPEN levels sorted by
distance to the preferred level, higher level first on ties. -/
def openLevelOrder (preferred : ℤ) : List ℤ :=
  List.insertionSort (fun a b =>
    lex2 (|a - preferred|, -a) (|b - preferred|, -b)) openLevels

/-- policy.py `QuestionPolicy._pick_open_level`: the OPEN level nearest to the
current ability estimate (first minimum, as Python `min`). -/
noncomputable def pick_open_level (t : ℝ) : ℤ :=
  openLevels.tail.foldl (fun (best : ℤ) (lvl : ℤ) =>
    if |t - (lvl : ℝ)| < |t - (best : ℝ)| then lvl else best) (openLevels.headD 0)

/-- policy.py `QuestionPolicy._select_open_item`: walk the level order around
the preferred level; at the first bucket with unseen options return the first
option when peeking, otherwise a random choice (the `_open_target_level`
annotations written onto the shared item objects are not part of the state
verified here). -/
def select_open_item (p : Policy) (domain : String) (preferred : ℤ)
    (st : PolicyState) (peek : Bool) (pick : List Item → ℕ) : Option (Item × ℤ) :=
  (openLevelOrder preferred).findSome? (fun lvl =>
    let options := (openIndexPool p.items domain lvl).filter (fun it => isUnseen it st)
    (if peek then options.head? else rngChoice pick options).map (fun it => (it, lvl)))

/-- One entry of the list built by policy.py `_open_candidates`:
(domain, item, se, open count, target level, served level). -/
def OpenCand : Type := String × Item × ℝ × ℕ × ℤ × ℤ

/-- The per-domain body of the `_open_candidates` loop: `none` corresponds to
the `continue` branches (quota reached, gates failed, no unseen item). -/
noncomputable def open_candidate_for (p : Policy) (st : PolicyState)
    (domain : String) : Option OpenCand :=
  let hist := st.hist domain
  if 2 ≤ hist.open_count then none
  else
    let se_val := st.se domain
    let theta_val := st.theta domain
    let target? : Option ℤ :=
      if hist.open_count = 0 then
        if hist.obj_count < OPEN_GATE1_MIN_OBJ then none
        else if OPEN_GATE1_SE_MAX < se_val then none
        else some (pick_open_level theta_val)
      else
        if hist.obj_count < OPEN_GATE1_MIN_OBJ then none
        else if OPEN_GATE2_SE_MAX < se_val then none
        else
          match hist.open_contrib with
          | [] => none
          | first :: _ =>
            if first.ignored ≠ none then none
            else if first.r < OPEN_GATE2_MIN_R1 then none
            else
              let b1 := first.b
              let mu1 := first.mu
              let denom := max (mu1 * (1 - mu1)) EPS
              let z1 := (first.r - mu1) / Real.sqrt denom
              let recent := takeLast 4 hist.recent_window
              let last_two := if 2 ≤ recent.length then takeLast 2 recent else []
              let has_miss := (takeLast 3 hist.recent_window).any (fun x => !x)
              some (if last_two.length = 2 ∧ last_two.all id = true ∧ OPEN_Z_SHIFT ≤ z1 then
                      min (b1 + 1) 1
                    else if has_miss = true ∧ z1 ≤ -OPEN_Z_SHIFT then
                      max (b1 - 1) (-1)
                    else b1)
    match target? with
    | none => none
    | some target =>
      match select_open_item p domain target st true (fun _ => 0) with
      | none => none
      | some (item, served_level) =>
        some (domain, item, se_val, hist.open_count, target, served_level)

/-- policy.py `QuestionPolicy._open_candidates`: empty unless this is a long
run with OPEN enabled, every domain met its objective minimum, and the most
recently served item was objective (MCQ/SJT). -/
noncomputable def open_candidates (p : Policy) (st : PolicyState) (obj_min : ℕ) :
    List OpenCand :=
  if p.run_type ≠ RunType.long ∨ OPEN_ENABLED_LONG = false then []
  else if DOMAINS.any (fun d => (st.hist d).obj_count < obj_min) then []
  else if st.last_item_type ≠ some "MCQ" ∧ st.last_item_type ≠ some "SJT" then []
  else DOMAINS.filterMap (open_candidate_for p st)

/-- policy.py `QuestionPolicy._open_candidate_exists`. -/
noncomputable def open_candidate_exists (p : Policy) (st : PolicyState)
    (obj_min : ℕ) : Bool :=
  !(open_candidates p st obj_min).isEmpty

/-- policy.py `_maybe_serve_open` sort key: (-se, open count, rotation, stable
order) of a candidate entry. -/
noncomputable def openCandKey (st : PolicyState) (e : OpenCand) : ℝ × ℕ × ℤ × ℕ :=
  match e with
  | (dom, _, se_val, open_count, _, _) =>
    (-se_val, open_count, rotationKey st dom, domainIndex dom)

/-- policy.py `QuestionPolicy._maybe_serve_open`. -/
noncomputable def maybe_serve_open (p : Policy) (st : PolicyState)
    (obj_min sr_needed : ℕ) (pick : List Item → ℕ) : Option Item :=
  if 0 < sr_needed then none
  else
    let candidates := open_candidates p st obj_min
    if candidates.isEmpty then none
    else
      let sorted := List.insertionSort
        (fun a b => lex4 (openCandKey st a) (openCandKey st b)) candidates
      match sorted.head? with
      | none => none
      | some (domain, _, _, _, target_level, _) =>
        match select_open_item p domain target_level st false pick with
        | none => none
        | some (item, _) => some item

/-- policy.py `should_stop` / `next_item`: total unmet SR quota over all
domains (natural subtraction models Python `max(0, ...)`). -/
def srNeeded (st : PolicyState) (sr_required : ℕ) : ℕ :=
  (DOMAINS.map (fun d => sr_required - (st.hist d).sr_count)).sum

/-- policy.py `QuestionPolicy.should_stop`, transcribed branch for branch
(including the final `return False`). -/
noncomputable def should_stop (p : Policy) (st : PolicyState) : Bool :=
  let b := bounds st.run_type
  let obj_min := b.2.1
  let obj_max := b.2.2.1
  let sr_required := b.2.2.2
  let cap := capFor st.run_type
  if cap ≤ st.step then true
  else if 0 < (DOMAINS.map (fun d => obj_min - (st.hist d).obj_count)).sum then false
  else if DOMAINS.any (fun d =>
      !(st.hist d).obj_done && decide ((st.hist d).obj_count < obj_max)) then false
  else
    let sr_needed := if 0 < sr_required then srNeeded st sr_required else 0
    if 0 < sr_required ∧ 0 < sr_needed then
      if DOMAINS.any (fun d =>
          decide ((st.hist d).sr_count < sr_required) && sr_available p d st) then false
      else true
    else if p.run_type = RunType.long ∧ OPEN_ENABLED_LONG = true ∧ sr_needed = 0 then
      if open_candidate_exists p st obj_min = true then false else false
    else false

/-- The tail of policy.py `QuestionPolicy.next_item` after the self-report
stage: OPEN gating, then the two precision/fill objective stages (each falls
through when it finds no item), then the unconditional fallback. -/
noncomputable def next_item_tail (p : Policy) (st : PolicyState)
    (pick : List Item → ℕ) (obj_min sr_needed : ℕ) (stage_b stage_c : List String) :
    Option Item :=
  match maybe_serve_open p st obj_min sr_needed pick with
  | some it => some it
  | none =>
    match (if stage_b ≠ [] then serve_objective p (sortCandidates stage_b st) st pick
           else none) with
    | some it => some it
    | none =>
      match (if stage_c ≠ [] then serve_objective p (sortCandidates stage_c st) st pick
             else none) with
      | some it => some it
      | none => fallback_objective p st pick

/-- The self-report stage of policy.py `QuestionPolicy.next_item` (entered
when `sr_needed > 0`): try the SR domain chooser, serve an SR item when the
interleaving condition allows, otherwise fall through to the tail stages. -/
noncomputable def next_item_sr_stage (p : Policy) (st : PolicyState)
    (pick : List Item → ℕ) (obj_min sr_required sr_needed : ℕ) (sr_only : Bool)
    (stage_b stage_c : List String) (lastPickWasSr : Bool) : Option Item × Bool :=
  match sr_domain p st obj_min sr_required with
  | none =>
    if sr_only then (none, lastPickWasSr)
    else (next_item_tail p st pick obj_min sr_needed stage_b stage_c, false)
  | some dom =>
    if sr_only || (!lastPickWasSr || (stage_b.isEmpty && stage_c.isEmpty)) then
      match pick_sr_item p dom st pick with
      | some it => (some it, true)
      | none => (next_item_tail p st pick obj_min sr_needed stage_b stage_c, false)
    else (next_item_tail p st pick obj_min sr_needed stage_b stage_c, false)

/-- The objective-minima stage of policy.py `QuestionPolicy.next_item`: serve
the sorted under-minimum domains; on success the SR flag clears, on failure
`None` is returned with the flag untouched. -/
noncomputable def next_item_min_stage (p : Policy) (st : PolicyState)
    (pick : List Item → ℕ) (doms : List String) (lastPickWasSr : Bool) :
    Option Item × Bool :=
  match serve_objective p doms st pick with
  | some it => (some it, false)
  | none => (none, lastPickWasSr)

/-- policy.py `QuestionPolicy.next_item`.  The mutable `_last_pick_was_sr`
flag enters as `lastPickWasSr` and the updated flag is returned alongside the
item. -/
noncomputable def next_item (p : Policy) (st : PolicyState) (lastPickWasSr : Bool)
    (pick : List Item → ℕ) : Option Item × Bool :=
  let b := bounds st.run_type
  let se_target := b.1
  let obj_min := b.2.1
  let obj_max := b.2.2.1
  let sr_required := b.2.2.2
  let cap := capFor st.run_type
  let steps_left := cap - st.step
  if steps_left = 0 then (none, lastPickWasSr)
  else
    let remaining := DOMAINS.filter (fun d => (st.hist d).obj_count < obj_min)
    if remaining ≠ [] then
      next_item_min_stage p st pick (sortCandidates remaining st) lastPickWasSr
    else
      let stage_b := DOMAINS.filter (fun d =>
        !(st.hist d).obj_done && decide (se_target < st.se d))
      let stage_c := DOMAINS.filter (fun d =>
        !(st.hist d).obj_done && decide ((st.hist d).obj_count < obj_max))
      let sr_needed := if 0 < sr_required then srNeeded st sr_required else 0
      let sr_only := decide (0 < sr_needed ∧ steps_left ≤ sr_needed)
      if 0 < sr_needed then
        next_item_sr_stage p st pick obj_min sr_required sr_needed sr_only
          stage_b stage_c lastPickWasSr
      else (next_item_tail p st pick obj_min sr_needed stage_b stage_c, false)

/-- Python `set.add` on a set modelled as a duplicate-free list. -/
def addStr (s : String) (l : List String) : List String :=
  if l.contains s then l else s :: l

/-- engine.py `if vg: self.seen_variant_groups.add(vg)`: only truthy
(non-empty) variant-group tags are recorded. -/
def addVG (vg : Option String) (l : List String) : List String :=
  match vg with
  | some v => if v != "" then addStr v l else l
  | none => l

/-- The exclusion bookkeeping of one session: asked item ids, seen variant
groups, and the ordered list of served items. -/
structure ServeTrace where
  asked : List String
  seenVGs : List String
  served : List Item

/-- The serve-answer loop of `AdaptiveSession` (spec section 2: serve, then
receive the answer, then repeat): starting from the fresh session, each turn
the policy's `next_item` returns an item against a snapshot whose exclusion
sets are the session's current `asked` / `seen_variant_groups`, and the
session then records the item id (answer_current) and its truthy
variant-group tag (next_item and answer_current).  All other snapshot fields,
the SR flag and the random source are arbitrary, over-approximating every
real session. -/
inductive ReachableServe (p : Policy) : ServeTrace → Prop
  | init : ReachableServe p ⟨[], [], []⟩
  | step (tr : ServeTrace) (st : PolicyState) (lastSr : Bool)
      (pick : List Item → ℕ) (it : Item) (flag : Bool) :
      ReachableServe p tr →
      st.asked = tr.asked →
      st.seen_variant_groups = tr.seenVGs →
      next_item p st lastSr pick = (some it, flag) →
      ReachableServe p ⟨addStr it.id tr.asked, addVG it.variant_group tr.seenVGs,
        tr.served ++ [it]⟩

/-- Two items share a variant group when both carry the same truthy
(non-empty) tag; empty-string tags are Python-falsy and are treated as absent
throughout policy.py and engine.py. -/
def sharesVG (a b : Item) : Prop :=
  ∃ g, g ≠ "" ∧ a.variant_group = some g ∧ b.variant_group = some g

/-- One audit row of engine.py `answer_current` (`self.state.item_rows`). -/
structure ItemRow where
  ts : ℝ
  run_type : RunType
  domain : String
  type : String
  id : String
  answer : Value
  credit : ℝ
  rt_sec : ℝ

/-- One structured audit event of engine.py `answer_current`
(`self.state.audit_events`). -/
structure AuditEvent where
  t : String
  domain : String
  item_id : String
  type : String
  b : ℤ
  level_before : ℤ
  level_after : ℤ
  correct_or_r : ℝ
  theta_before : ℝ
  theta_after : ℝ
  se_after : ℝ
  latency_ms : ℤ

/-- engine.py `AdaptiveSession` state as touched by `answer_current`
(the per-domain states, answer log, response-time tallies, audit rows,
exclusion sets, in-flight item, step counter and rotation memory). -/
structure Session where
  run_type : RunType
  domains : String → DomainState
  answers : List (String × Answer)
  rt_sums : String → ℝ
  rt_counts : String → ℕ
  item_rows : List ItemRow
  audit_events : List AuditEvent
  asked : List String
  seen_variant_groups : List String
  current : Option Item
  step : ℕ
  last_domain_id : Option String
  last_item_type : Option String
  info_hist : List ℝ

/-- engine.py `AdaptiveSession._update_obj_done`. -/
noncomputable def update_obj_done (rt : RunType) (ds : DomainState) : DomainState :=
  let b := bounds rt
  { ds with obj_done :=
      (decide (b.2.1 ≤ ds.obj_count) && decide (ds.se ≤ b.1)) ||
        decide (b.2.2.1 ≤ ds.obj_count) }

/-- engine.py `AdaptiveSession.answer_current`.  `if not self._current:
return` makes a submission with no pending item a silent no-op (the function
returns without raising and without touching any state).  The ambient inputs
are explicit: `grader`/`deflect` for the scoring adapter, `partner` for the
mirror-pair lookup of `_update_sr_reliability`, `targetAnnot` for the
`_target_level` annotation the policy wrote onto the served item, `now` for
the wall-clock timestamp and `ts` for `time.time()`.  Python exceptions (from
`int(...)` inside scoring) surface as `Except.error`. -/
noncomputable def answer_current (s : Session) (a : Answer)
    (grader : String → String → String → ℝ) (deflect : String → Bool)
    (partner : Option (Item × Answer)) (targetAnnot : Option ℤ)
    (now : String) (ts : ℝ) : Except String Session :=
  match s.current with
  | none => .ok s
  | some it =>
    match score_item it a grader deflect with
    | .error e => .error e
    | .ok (credit, _meta) =>
      let ds := s.domains it.domain
      let rt_sums1 := match a.rt_sec with
        | some rtv => fun k => if k = it.type then s.rt_sums k + rtv else s.rt_sums k
        | none => s.rt_sums
      let rt_counts1 := match a.rt_sec with
        | some _ => fun k => if k = it.type then s.rt_counts k + 1 else s.rt_counts k
        | none => s.rt_counts
      let rt_ms : ℤ := match a.rt_sec with
        | some rtv => max 0 (round (rtv * 1000))
        | none => 0
      let difficulty := it.difficulty
      let level_bucket := max (min difficulty 2) (-2)
      let level_before := ds.level
      let ds1 :=
        if it.type = "MCQ" ∨ it.type = "SJT" then
          let correct_bool := if it.type = "MCQ" then decide (0.999 ≤ credit)
            else decide (0.5 ≤ credit)
          let target := targetAnnot.getD ds.level
          update_obj_done s.run_type
            (apply_objective_step ds level_bucket correct_bool s.run_type (some target))
        else ds
      let ds2 :=
        if it.type = "MCQ" then
          { ds1 with
            mcq_total := ds1.mcq_total + 1
            mcq_correct := ds1.mcq_correct + (if 0.999 ≤ credit then 1 else 0)
            max_diff := max ds1.max_diff difficulty }
        else if it.type = "SJT" then
          { ds1 with sjt_total := ds1.sjt_total + 1, sjt_sum := ds1.sjt_sum + credit }
        else if it.type = "OPEN" then
          let word_count := wordCount (pyStr a.value)
          let latency_ms : ℝ := match a.rt_sec with
            | some rtv => rtv * 1000
            | none => 0
          -- scoring.py `_score_open` puts no rubric_conf key into its meta
          -- dict, so `meta.get("rubric_conf")` is always None here.
          update_obj_done s.run_type
            (apply_open_step
              { ds1 with open_total := ds1.open_total + 1, open_sum := ds1.open_sum + credit }
              level_bucket credit word_count latency_ms none)
        else if it.type = "SR" then
          apply_sr_step ds1 it a credit partner
        else ds1
      let info_hist1 :=
        if it.type = "MCQ" ∨ it.type = "SJT" ∨ it.type = "OPEN" then
          s.info_hist ++ [ds2.info_total + ds2.open_info_total]
        else s.info_hist
      let event : AuditEvent :=
        { t := now
          domain := it.domain
          item_id := it.id
          type := it.type
          b := if it.type = "OPEN" then max (min difficulty 1) (-1) else level_bucket
          level_before := level_before
          level_after := ds2.level
          correct_or_r :=
            if it.type = "MCQ" ∨ it.type = "SJT" then
              (if (if it.type = "MCQ" then 0.999 ≤ credit else 0.5 ≤ credit) then 1 else 0)
            else credit
          theta_before := ds.theta
          theta_after := ds2.theta
          se_after := ds2.se
          latency_ms := rt_ms }
      let row : ItemRow :=
        { ts := ts
          run_type := s.run_type
          domain := it.domain
          type := it.type
          id := it.id
          answer := a.value
          credit := credit
          rt_sec := a.rt_sec.getD 0 }
      .ok { s with
        domains := fun d => if d = it.domain then ds2 else s.domains d
        answers := s.answers ++ [(it.id, a)]
        rt_sums := rt_sums1
        rt_counts := rt_counts1
        item_rows := s.item_rows ++ [row]
        audit_events := s.audit_events ++ [event]
        asked := addStr it.id s.asked
        seen_variant_groups := addVG it.variant_group s.seen_variant_groups
        current := none
        step := s.step + 1
        last_domain_id := some it.domain
        last_item_type := some it.type
        info_hist := info_hist1 }

/-- The information increment of one objective answer
(`rasch.item_info(theta_after, bucket)` in `_apply_objective_step`). -/
noncomputable def objInfoDelta (ds : DomainState) (b : ℤ) (c : Bool) : ℝ :=
  item_info (map_update ds.theta (clampLevel b) c 1 RASCH_PRIOR_VAR RASCH_ETA)
    (clampLevel b) 1

/-- The four item kinds scoring.py dispatches on; anything else falls into the
zero-credit unknown-kind branch. -/
def knownKind (t : String) : Prop :=
  t = "MCQ" ∨ t = "SJT" ∨ t = "SR" ∨ t = "OPEN"

instance knownKind.instDecidable : ∀ t, Decidable (knownKind t) :=
  fun t => by unfold knownKind; infer_instance

/-- A concrete session with no in-flight item (`self._current is None`). -/
noncomputable def exSessionNoPending : Session where
  run_type := RunType.short
  domains := fun _ => defaultDomainState
  answers := []
  rt_sums := fun _ => 0
  rt_counts := fun _ => 0
  item_rows := []
  audit_events := []
  asked := []
  seen_variant_groups := []
  current := none
  step := 0
  last_domain_id := none
  last_item_type := none
  info_hist := []

/-- A short-run policy over an empty bank (the stop decision for the
counterexample below never consults the item pools). -/
def emptyShortPolicy : Policy := ⟨[], RunType.short⟩

/-- A domain history in which the short-run targets are all met: objective
minimum reached, precision flag `obj_done` set, SR quota filled. -/
noncomputable def histAllDone : DomainHistory :=
  { defaultDomainHistory with obj_count := 4, obj_done := true, sr_count := 1 }

/-- A short-run policy state halfway through the budget in which every domain
has met its objective minimum, its precision target (obj_done) and its SR
quota. -/
noncomputable def stateAllTargetsMet : PolicyState where
  run_type := RunType.short
  theta := fun _ => 0
  se := fun _ => 1
  asked := []
  seen_variant_groups := []
  step := 50
  hist := fun _ => histAllDone
  info_history := []
  mirrored_domains_planned := []
  last_domain_id := none
  last_item_type := some "MCQ"

/-- The same snapshot at an exhausted step budget. -/
noncomputable def stateBudgetExhausted : PolicyState :=
  { stateAllTargetsMet with step := 104 }

/-- A single OPEN item used for the concrete OPEN-gating run. -/
noncomputable def openOnlyItem : Item where
  id := "o1"
  domain := "Analytical"
  type := "OPEN"
  text := "explain your approach"
  options := none
  correct := none
  weight := 1
  is_trap := false
  mirror_of := none
  trap_flag_index := none
  difficulty := 0
  discrimination := 1
  variant_group := none

/-- A long-run policy whose bank holds only `openOnlyItem`. -/
noncomputable def openOnlyPolicy : Policy := ⟨[openOnlyItem], RunType.long⟩

/-- A long-run domain history that passes the first OPEN gate. -/
noncomputable def histOpenReady : DomainHistory :=
  { defaultDomainHistory with obj_count := 8, obj_done := true, sr_count := 2 }

/-- The same history with the OPEN quota already exhausted. -/
noncomputable def histOpenBlocked : DomainHistory :=
  { histOpenReady with open_count := 2 }

/-- A long-run snapshot whose previous item was objective, with the
Analytical domain OPEN-eligible and every other domain at its OPEN quota. -/
noncomputable def stateOpenReady : PolicyState where
  run_type := RunType.long
  theta := fun _ => 0
  se := fun _ => 0
  asked := []
  seen_variant_groups := []
  step := 10
  hist := fun d => if d = "Analytical" then histOpenReady else histOpenBlocked
  info_history := []
  mirrored_domains_planned := []
  last_domain_id := none
  last_item_type := some "MCQ"

/-
  Theorems.
-/

theorem EPS_pos : 0 < EPS := by norm_num [EPS]

theorem item_info_nonneg (theta b a : ℝ) : 0 ≤ item_info theta b a :=
  le_max_right _ _

theorem apply_objective_step_info_total (ds : DomainState) (b : ℤ) (c : Bool)
    (rt : RunType) (tl : Option ℤ) :
    (apply_objective_step ds b c rt tl).info_total =
      max (ds.info_total + objInfoDelta ds b c) EPS := rfl

theorem apply_objective_step_open_info_total (ds : DomainState) (b : ℤ) (c : Bool)
    (rt : RunType) (tl : Option ℤ) :
    (apply_objective_step ds b c rt tl).open_info_total = ds.open_info_total := rfl

theorem apply_objective_step_obj_info_total (ds : DomainState) (b : ℤ) (c : Bool)
    (rt : RunType) (tl : Option ℤ) :
    (apply_objective_step ds b c rt tl).obj_info_total =
      max (ds.obj_info_total + objInfoDelta ds b c) 0 := rfl

theorem apply_objective_step_se (ds : DomainState) (b : ℤ) (c : Bool)
    (rt : RunType) (tl : Option ℤ) :
    (apply_objective_step ds b c rt tl).se =
      se_from_info (max (ds.info_total + objInfoDelta ds b c) EPS +
        ds.open_info_total) := rfl

theorem se_from_info_anti {x y : ℝ} (h : x ≤ y) : se_from_info y ≤ se_from_info x := by
  unfold se_from_info
  have hx : (0 : ℝ) < Real.sqrt (max x EPS) :=
    Real.sqrt_pos.mpr (lt_of_lt_of_le EPS_pos (le_max_right _ _))
  have hs : Real.sqrt (max x EPS) ≤ Real.sqrt (max y EPS) :=
    Real.sqrt_le_sqrt (max_le_max h (le_refl EPS))
  exact one_div_le_one_div_of_le hx hs

theorem apply_objective_step_info_mono (ds : DomainState) (b : ℤ) (c : Bool)
    (rt : RunType) (tl : Option ℤ) :
    ds.info_total ≤ (apply_objective_step ds b c rt tl).info_total := by
  rw [apply_objective_step_info_total]
  exact le_trans (le_add_of_nonneg_right (item_info_nonneg _ _ _)) (le_max_left _ _)

theorem apply_objective_step_obj_info_mono (ds : DomainState) (b : ℤ) (c : Bool)
    (rt : RunType) (tl : Option ℤ) :
    ds.obj_info_total ≤ (apply_objective_step ds b c rt tl).obj_info_total := by
  rw [apply_objective_step_obj_info_total]
  exact le_trans (le_add_of_nonneg_right (item_info_nonneg _ _ _)) (le_max_left _ _)

theorem apply_objective_step_seInfoInv (ds : DomainState) (b : ℤ) (c : Bool)
    (rt : RunType) (tl : Option ℤ) :
    seInfoInv (apply_objective_step ds b c rt tl) := by
  unfold seInfoInv
  rw [apply_objective_step_se, apply_objective_step_info_total,
    apply_objective_step_open_info_total]

theorem apply_objective_step_se_le (ds : DomainState) (b : ℤ) (c : Bool)
    (rt : RunType) (tl : Option ℤ) (h : seInfoInv ds) :
    (apply_objective_step ds b c rt tl).se ≤ ds.se := by
  rw [apply_objective_step_se, h]
  exact se_from_info_anti
    (add_le_add_right (le_trans (le_add_of_nonneg_right (item_info_nonneg _ _ _))
      (le_max_left _ _)) _)

theorem scanl_head {α β : Type} (f : β → α → β) (b : β) (l : List α) :
    (List.scanl f b l).head? = some b := by
  cases l <;> simp [List.scanl]

/-- C5: for every sequence of objective answers, along the whole trajectory of
`_apply_objective_step` updates the accumulated information `info_total` is
non-decreasing and the derived standard error `se` is non-increasing at every
single update, provided the state satisfies the engine's se/information
coherence (which holds for the dataclass defaults and is re-established by
every update). -/
theorem objective_info_monotone_se_nonincreasing (rt : RunType)
    (answers : List ObjAnswer) (ds : DomainState) (h : seInfoInv ds) :
    List.Chain' (fun s t => s.info_total ≤ t.info_total ∧ t.se ≤ s.se)
      (List.scanl (applyObjAnswer rt) ds answers) := by
  induction answers generalizing ds with
  | nil => simp
  | cons a l ih =>
    rw [List.scanl]
    refine List.chain'_cons'.mpr ⟨?_, ih _ (apply_objective_step_seInfoInv _ _ _ _ _)⟩
    intro y hy
    rw [scanl_head] at hy
    cases hy
    exact ⟨apply_objective_step_info_mono _ _ _ _ _,
      apply_objective_step_se_le _ _ _ _ _ h⟩

/-- Witness for C5 at the fresh domain state and a concrete two-answer
sequence: the coherence hypothesis holds for the dataclass defaults. -/
theorem objective_info_monotone_se_nonincreasing_witness :
    List.Chain' (fun s t => s.info_total ≤ t.info_total ∧ t.se ≤ s.se)
      (List.scanl (applyObjAnswer RunType.short) defaultDomainState
        [⟨0, true, none⟩, ⟨0, false, none⟩]) := by
  apply objective_info_monotone_se_nonincreasing
  unfold seInfoInv defaultDomainState se_from_info
  norm_num [EPS]

theorem OPEN_INFO_CAP_R_nonneg : 0 ≤ OPEN_INFO_CAP_R := by
  norm_num [OPEN_INFO_CAP_R]

theorem apply_open_step_capInv (ds : DomainState) (d : ℤ) (s : ℝ) (w : ℕ)
    (l : ℝ) (r : Option ℝ) (h : openInfoCapInv ds) :
    openInfoCapInv (apply_open_step ds d s w l r) := by
  unfold openInfoCapInv apply_open_step
  by_cases hl : l < OPEN_LATENCY_P10_MS
  · simpa [hl] using h
  · simp only [if_neg hl]
    exact min_le_right _ _

theorem apply_objective_step_capInv (ds : DomainState) (b : ℤ) (c : Bool)
    (rt : RunType) (tl : Option ℤ) (h : openInfoCapInv ds) :
    openInfoCapInv (apply_objective_step ds b c rt tl) := by
  unfold openInfoCapInv
  rw [apply_objective_step_open_info_total]
  refine le_trans h (mul_le_mul_of_nonneg_left ?_ OPEN_INFO_CAP_R_nonneg)
  exact max_le_max (apply_objective_step_obj_info_mono ds b c rt tl) (le_refl EPS)

theorem applyAnswerStep_capInv (rt : RunType) (ds : DomainState) (a : AnswerStep)
    (h : openInfoCapInv ds) : openInfoCapInv (applyAnswerStep rt ds a) := by
  cases a with
  | obj b c t => exact apply_objective_step_capInv ds b c rt t h
  | free d s w l r => exact apply_open_step_capInv ds d s w l r h

/-- C1: along any sequence of objective and open-response answers, every
intermediate domain state keeps its cumulative free-text information below
the cap ratio times its (epsilon-floored) cumulative objective information;
`_apply_open_step` scales the ability delta and the information contribution
down (and finally clamps with `min`) whenever a candidate contribution would
exceed the cap. -/
theorem open_info_never_exceeds_cap (rt : RunType) (steps : List AnswerStep)
    (ds : DomainState) (h : openInfoCapInv ds) :
    ∀ s ∈ List.scanl (applyAnswerStep rt) ds steps, openInfoCapInv s := by
  induction steps generalizing ds with
  | nil =>
    intro s hs
    rw [List.scanl] at hs
    simp at hs
    rwa [hs]
  | cons a l ih =>
    intro s hs
    rw [List.scanl] at hs
    rcases List.mem_cons.mp hs with h1 | h2
    · rwa [h1]
    · exact ih (applyAnswerStep rt ds a) (applyAnswerStep_capInv rt ds a h) s h2

/-- Witness for C1: the fresh domain state satisfies the cap invariant and
the state after a concrete open-response answer still satisfies it. -/
theorem open_info_never_exceeds_cap_witness :
    openInfoCapInv (applyAnswerStep RunType.long defaultDomainState
      (AnswerStep.free 0 (1 / 2) 100 2000 none)) :=
  open_info_never_exceeds_cap RunType.long
    [AnswerStep.free 0 (1 / 2) 100 2000 none] defaultDomainState
    (by norm_num [openInfoCapInv, defaultDomainState, OPEN_INFO_CAP_R, EPS])
    _ (by simp [List.scanl])

theorem RECENT_WINDOW_LIMIT_eq : RECENT_WINDOW_LIMIT = 4 := rfl

/-- C3: when the current answer is served at the domain's current target level
and makes the trimmed rolling window satisfy the run type's pass rule
(2-of-3 short, 3-of-4 long), the ladder level rises by exactly one (clamped to
the maximum) and both the rolling window and the seen-at-level counter are
cleared. -/
theorem promotion_raises_level_and_clears_window (rt : RunType) (ds : DomainState)
    (b : ℤ) (c : Bool) (tl : Option ℤ)
    (hsame : tl.getD ds.level = ds.level)
    (hwin : (passRule rt).window ≤
      (takeLast (passRule rt).window (objUpdatedWindow ds c)).length)
    (hneed : (passRule rt).need ≤
      (takeLast (passRule rt).window (objUpdatedWindow ds c)).count true) :
    (apply_objective_step ds b c rt tl).level = clampLevel (ds.level + 1) ∧
    (apply_objective_step ds b c rt tl).recent_window = [] ∧
    (apply_objective_step ds b c rt tl).level_entry_seen = 0 := by
  unfold apply_objective_step
  simp [hsame, hwin, hneed]

/-- Witness for C3: a short-run state whose window holds two correct answers
gets promoted by the third correct answer at the same level. -/
theorem promotion_raises_level_and_clears_window_witness :
    (apply_objective_step { defaultDomainState with recent_window := [true, true] }
      0 true RunType.short none).level = clampLevel (0 + 1) ∧
    (apply_objective_step { defaultDomainState with recent_window := [true, true] }
      0 true RunType.short none).recent_window = [] ∧
    (apply_objective_step { defaultDomainState with recent_window := [true, true] }
      0 true RunType.short none).level_entry_seen = 0 := by
  have h := promotion_raises_level_and_clears_window RunType.short
    { defaultDomainState with recent_window := [true, true] } 0 true none
    (by simp [defaultDomainState])
    (by simp [passRule, PASS_RULE_SHORT, objUpdatedWindow, takeLast,
      defaultDomainState, RECENT_WINDOW_LIMIT_eq])
    (by simp [passRule, PASS_RULE_SHORT, objUpdatedWindow, takeLast,
      defaultDomainState, RECENT_WINDOW_LIMIT_eq, List.count])
  simpa [defaultDomainState] using h

/-- C4: immediately after a level change (empty rolling window, zeroed
seen-at-level counter) an objective answer leaves the ladder level unchanged
whatever its correctness and target level, so the first answer served at a new
level can never demote (nor promote). -/
theorem first_answer_after_level_change_never_demotes (rt : RunType)
    (ds : DomainState) (b : ℤ) (c : Bool) (tl : Option ℤ)
    (hwin : ds.recent_window = []) (hentry : ds.level_entry_seen = 0) :
    (apply_objective_step ds b c rt tl).level = ds.level := by
  unfold apply_objective_step
  cases rt <;>
    simp [hwin, hentry, objUpdatedWindow, takeLast, RECENT_WINDOW_LIMIT_eq,
      passRule, PASS_RULE_SHORT, PASS_RULE_LONG, DEMOTE_RULE]

/-- Witness for C4: a fresh state at level 0 answering incorrectly keeps
level 0. -/
theorem first_answer_after_level_change_never_demotes_witness :
    (apply_objective_step defaultDomainState 0 false RunType.short none).level =
      defaultDomainState.level := by
  exact first_answer_after_level_change_never_demotes RunType.short
    defaultDomainState 0 false none (by simp [defaultDomainState])
    (by simp [defaultDomainState])

theorem update_sr_reliability_preserves (ds : DomainState) (it : Item) (a : Answer)
    (partner : Option (Item × Answer)) :
    (update_sr_reliability ds it a partner).theta = ds.theta ∧
    (update_sr_reliability ds it a partner).info_total = ds.info_total ∧
    (update_sr_reliability ds it a partner).obj_info_total = ds.obj_info_total ∧
    (update_sr_reliability ds it a partner).open_info_total = ds.open_info_total ∧
    (update_sr_reliability ds it a partner).se = ds.se ∧
    (update_sr_reliability ds it a partner).level = ds.level ∧
    (update_sr_reliability ds it a partner).open_total = ds.open_total := by
  unfold update_sr_reliability
  rcases partner with _ | ⟨oit, oa⟩
  · split_ifs <;> simp
  · cases h1 : sr_normalized_value it a <;> cases h2 : sr_normalized_value oit oa <;>
      simp only [h1, h2] <;> split_ifs <;> simp

/-- C7: an SR (self-report) answer changes none of a domain's ability
estimate, information totals, standard error or ladder level, and therefore
neither the calibrated composite score (a function of theta alone) nor the
final score after the no-OPEN cap; self-report feeds only the reliability
tallies. -/
theorem sr_answer_preserves_estimate_and_score (ds : DomainState) (it : Item)
    (a : Answer) (credit : ℝ) (partner : Option (Item × Answer)) (domain : String) :
    (apply_sr_step ds it a credit partner).theta = ds.theta ∧
    (apply_sr_step ds it a credit partner).info_total = ds.info_total ∧
    (apply_sr_step ds it a credit partner).obj_info_total = ds.obj_info_total ∧
    (apply_sr_step ds it a credit partner).open_info_total = ds.open_info_total ∧
    (apply_sr_step ds it a credit partner).se = ds.se ∧
    (apply_sr_step ds it a credit partner).level = ds.level ∧
    composite_score domain (apply_sr_step ds it a credit partner) =
      composite_score domain ds ∧
    final_norm_score domain (apply_sr_step ds it a credit partner) =
      final_norm_score domain ds := by
  have h := update_sr_reliability_preserves
    { ds with
      sr_total := ds.sr_total + 1
      sr_sum := ds.sr_sum + credit
      sr_count := ds.sr_count + 1 } it a partner
  unfold apply_sr_step
  refine ⟨h.1, h.2.1, h.2.2.1, h.2.2.2.1, h.2.2.2.2.1, h.2.2.2.2.2.1, ?_, ?_⟩
  · unfold composite_score
    rw [h.1]
  · unfold final_norm_score composite_score
    rw [h.1, h.2.2.2.2.2.2]

theorem clamp01_nonneg (x : ℝ) : 0 ≤ clamp01 x := by
  unfold clamp01
  split_ifs with hA hB
  · norm_num
  · norm_num
  · exact le_of_not_lt hA

theorem clamp01_le_one (x : ℝ) : clamp01 x ≤ 1 := by
  unfold clamp01
  split_ifs with hA hB
  · norm_num
  · norm_num
  · exact le_of_not_lt hB

theorem score_mcq_bounds (it : Item) (n : ℤ) :
    0 ≤ (score_mcq it n).1 ∧ (score_mcq it n).1 ≤ 1 := by
  unfold score_mcq
  dsimp only
  split_ifs <;> norm_num

theorem score_sr_bounds (it : Item) (n : ℤ) :
    0 ≤ (score_sr it n).1 ∧ (score_sr it n).1 ≤ 1 := by
  unfold score_sr
  exact ⟨clamp01_nonneg _, clamp01_le_one _⟩

theorem score_open_item_bounds (it : Item) (text : String)
    (grader : String → String → String → ℝ) (deflect : String → Bool) :
    0 ≤ (score_open_item it text grader deflect).1 ∧
      (score_open_item it text grader deflect).1 ≤ 1 := by
  unfold score_open_item
  dsimp only
  split_ifs
  · norm_num
  · exact ⟨clamp01_nonneg _, clamp01_le_one _⟩

/-- C9 counterexample: as stated the claim fails — scoring an MCQ item against
an answer whose value is `None` runs Python `int(None)`, which raises a
TypeError out of `score_item` (the session does not catch it). -/
theorem score_item_raises_on_none_value :
    score_item
      { id := "m1", domain := "Analytical", type := "MCQ", text := "q",
        options := none, correct := some 0, weight := 1, is_trap := false,
        mirror_of := none, trap_flag_index := none, difficulty := 0,
        discrimination := 1, variant_group := none }
      { item_id := "m1", value := Value.vNone, rt_sec := none }
      (fun _ _ _ => 0) (fun _ => false) =
      Except.error "TypeError: int() argument must not be None" := by
  rfl

/-- C9 amended: scoring cannot raise for integer-valued answers, for OPEN
items (any value), or for unknown item kinds; the produced credit is always
clamped into 0..1 (out-of-range SR values are clamped, the grader result is
clamped) and an unknown kind yields zero credit with its distinct meta tag.
Only a non-integer value reaching the `int(...)` conversion of an MCQ/SJT/SR
item raises. -/
theorem score_item_total_on_supported_inputs (it : Item) (a : Answer)
    (grader : String → String → String → ℝ) (deflect : String → Bool)
    (h : (∃ n, a.value = Value.vInt n) ∨ pyUpper it.type = "OPEN" ∨
      ¬ knownKind (pyUpper it.type)) :
    ∃ c m, score_item it a grader deflect = Except.ok (c, m) ∧ 0 ≤ c ∧ c ≤ 1 ∧
      (¬ knownKind (pyUpper it.type) → c = 0 ∧
        m = ScoreMeta.unknown
          (if pyUpper it.type = "" then "UNKNOWN" else pyUpper it.type)) := by
  by_cases h1 : pyUpper it.type = "MCQ"
  · have hk : knownKind (pyUpper it.type) := by unfold knownKind; exact Or.inl h1
    have hInt : ∃ n, a.value = Value.vInt n := by
      rcases h with h | h | h
      · exact h
      · rw [h1] at h; exact absurd h (by decide)
      · exact absurd hk h
    obtain ⟨n, hv⟩ := hInt
    refine ⟨(score_mcq it n).1, (score_mcq it n).2,
      by simp [score_item, h1, hv, pyIntOfValue, Except.map], ?_, ?_,
      fun hc => absurd hk hc⟩
    · exact (score_mcq_bounds it n).1
    · exact (score_mcq_bounds it n).2
  · by_cases h2 : pyUpper it.type = "SJT"
    · have hk : knownKind (pyUpper it.type) := by
        unfold knownKind; exact Or.inr (Or.inl h2)
      have hInt : ∃ n, a.value = Value.vInt n := by
        rcases h with h | h | h
        · exact h
        · rw [h2] at h; exact absurd h (by decide)
        · exact absurd hk h
      obtain ⟨n, hv⟩ := hInt
      refine ⟨(score_sjt it n).1, (score_sjt it n).2,
        by simp [score_item, h1, h2, hv, pyIntOfValue, Except.map], ?_, ?_,
        fun hc => absurd hk hc⟩
      · exact (score_mcq_bounds it n).1
      · exact (score_mcq_bounds it n).2
    · by_cases h3 : pyUpper it.type = "SR"
      · have hk : knownKind (pyUpper it.type) := by
          unfold knownKind; exact Or.inr (Or.inr (Or.inl h3))
        have hInt : ∃ n, a.value = Value.vInt n := by
          rcases h with h | h | h
          · exact h
          · rw [h3] at h; exact absurd h (by decide)
          · exact absurd hk h
        obtain ⟨n, hv⟩ := hInt
        refine ⟨(score_sr it n).1, (score_sr it n).2,
          by simp [score_item, h1, h2, h3, hv, pyIntOfValue, Except.map], ?_, ?_,
          fun hc => absurd hk hc⟩
        · exact (score_sr_bounds it n).1
        · exact (score_sr_bounds it n).2
      · by_cases h4 : pyUpper it.type = "OPEN"
        · have hk : knownKind (pyUpper it.type) := by
            unfold knownKind; exact Or.inr (Or.inr (Or.inr h4))
          refine ⟨(score_open_item it
              (if pyTruthy a.value then pyStr a.value else "") grader deflect).1,
            (score_open_item it
              (if pyTruthy a.value then pyStr a.value else "") grader deflect).2,
            by simp [score_item, h1, h2, h3, h4], ?_, ?_, fun hc => absurd hk hc⟩
          · exact (score_open_item_bounds it _ grader deflect).1
          · exact (score_open_item_bounds it _ grader deflect).2
        · refine ⟨0, ScoreMeta.unknown
              (if pyUpper it.type = "" then "UNKNOWN" else pyUpper it.type),
            by simp [score_item, h1, h2, h3, h4], le_refl 0, by norm_num,
            fun _ => ⟨rfl, rfl⟩⟩

/-- Witness for the amended C9 at concrete inputs: an integer-valued answer to
an MCQ item scores without error. -/
theorem score_item_total_on_supported_inputs_witness :
    ∃ c m, score_item
      { id := "m1", domain := "Analytical", type := "MCQ", text := "q",
        options := none, correct := some 0, weight := 1, is_trap := false,
        mirror_of := none, trap_flag_index := none, difficulty := 0,
        discrimination := 1, variant_group := none }
      { item_id := "m1", value := Value.vInt 3, rt_sec := none }
      (fun _ _ _ => 0) (fun _ => false) = Except.ok (c, m) ∧ 0 ≤ c ∧ c ≤ 1 ∧
      (¬ knownKind (pyUpper "MCQ") → c = 0 ∧
        m = ScoreMeta.unknown
          (if pyUpper "MCQ" = "" then "UNKNOWN" else pyUpper "MCQ")) :=
  score_item_total_on_supported_inputs _ _ _ _ (Or.inl ⟨3, rfl⟩)

/-- C8 counterexample: as stated the claim fails — submitting an answer while
no item is pending is not a hard failure: `answer_current` hits `if not
self._current: return` and comes back without an error, leaving the session
exactly as it was (silently ignoring the submission rather than rejecting
it). -/
theorem answer_without_pending_not_rejected :
    answer_current exSessionNoPending
      { item_id := "ghost", value := Value.vInt 0, rt_sec := none }
      (fun _ _ _ => 0) (fun _ => false) none none "1970-01-01T00:00:00Z" 0 =
      Except.ok exSessionNoPending ∧
    exSessionNoPending.current = none := ⟨rfl, rfl⟩

/-- C8 amended: a submission with no pending item is silently ignored — the
call returns without error and the session state is completely unchanged (the
rejection the claim describes does not happen). -/
theorem answer_without_pending_is_silent_noop (s : Session) (a : Answer)
    (grader : String → String → String → ℝ) (deflect : String → Bool)
    (partner : Option (Item × Answer)) (targetAnnot : Option ℤ)
    (now : String) (ts : ℝ) (h : s.current = none) :
    answer_current s a grader deflect partner targetAnnot now ts = Except.ok s := by
  unfold answer_current
  rw [h]

/-- Witness for the amended C8 at a concrete session and answer. -/
theorem answer_without_pending_is_silent_noop_witness :
    answer_current exSessionNoPending
      { item_id := "other", value := Value.vStr "hello", rt_sec := some 2 }
      (fun _ _ _ => 1) (fun _ => true) none (some 1) "now" 3 =
      Except.ok exSessionNoPending :=
  answer_without_pending_is_silent_noop _ _ _ _ _ _ _ _ rfl

theorem sumMapZero {f : String → ℕ} {l : List String} :
    (l.map f).sum = 0 ↔ ∀ d ∈ l, f d = 0 := by
  rw [List.sum_eq_zero_iff]
  constructor
  · intro h d hd
    exact h _ (List.mem_map_of_mem f hd)
  · intro h x hx
    obtain ⟨d, hd, rfl⟩ := List.mem_map.mp hx
    exact h d hd

/-- C2 counterexample: as stated the claim fails — in a short-run state with
budget remaining where every domain has met its objective minimum, its
precision flag (obj_done) and its SR quota, `should_stop` still returns
false: the function's final line is `return False`, so it never stops on the
precision/quota condition the claim describes. -/
theorem should_stop_false_when_targets_met :
    should_stop emptyShortPolicy stateAllTargetsMet = false ∧
    stateAllTargetsMet.step < capFor stateAllTargetsMet.run_type ∧
    (∀ d ∈ DOMAINS, OBJ_MIN_SHORT ≤ (stateAllTargetsMet.hist d).obj_count) ∧
    (∀ d ∈ DOMAINS, (stateAllTargetsMet.hist d).obj_done = true) ∧
    (∀ d ∈ DOMAINS, SR_PER_DOMAIN_SHORT ≤ (stateAllTargetsMet.hist d).sr_count) :=
  ⟨rfl, by norm_num [stateAllTargetsMet, capFor, CAP_SHORT],
   fun d _ => Nat.le_refl 4, fun d _ => rfl, fun d _ => Nat.le_refl 1⟩

/-- C2 amended: `should_stop` returns true exactly when the step budget is
exhausted, or when (with all objective minima met and every domain either
obj_done or at its objective maximum) some domain's SR quota is unmet but no
under-quota domain has an unseen SR item left.  In particular it never
returns true below the budget while a domain is under its objective minimum,
and — against the claim — it returns false, not true, when every precision
target and quota is satisfied. -/
theorem should_stop_characterization (p : Policy) (st : PolicyState) :
    should_stop p st = true ↔
      (capFor st.run_type ≤ st.step ∨
        ((∀ d ∈ DOMAINS, (bounds st.run_type).2.1 ≤ (st.hist d).obj_count) ∧
         (∀ d ∈ DOMAINS, (st.hist d).obj_done = true ∨
            (bounds st.run_type).2.2.1 ≤ (st.hist d).obj_count) ∧
         (∃ d ∈ DOMAINS, (st.hist d).sr_count < (bounds st.run_type).2.2.2) ∧
         (∀ d ∈ DOMAINS, (st.hist d).sr_count < (bounds st.run_type).2.2.2 →
            sr_available p d st = false))) := by
  simp only [should_stop]
  by_cases hcap : capFor st.run_type ≤ st.step
  · simp only [if_pos hcap, true_iff]
    exact Or.inl hcap
  · rw [if_neg hcap]
    by_cases hmin :
        0 < (DOMAINS.map fun d => (bounds st.run_type).2.1 - (st.hist d).obj_count).sum
    · rw [if_pos hmin]
      refine iff_of_false (by simp) ?_
      rintro (h | ⟨hall, -⟩)
      · exact hcap h
      · have hz : (DOMAINS.map fun d =>
            (bounds st.run_type).2.1 - (st.hist d).obj_count).sum = 0 :=
          sumMapZero.mpr (fun d hd => Nat.sub_eq_zero_of_le (hall d hd))
        rw [hz] at hmin
        exact Nat.lt_irrefl 0 hmin
    · rw [if_neg hmin]
      have hall1 : ∀ d ∈ DOMAINS, (bounds st.run_type).2.1 ≤ (st.hist d).obj_count := by
        intro d hd
        have hz := sumMapZero.mp (Nat.eq_zero_of_not_pos hmin) d hd
        exact Nat.le_of_sub_eq_zero hz
      by_cases hloop : DOMAINS.any (fun d =>
          !(st.hist d).obj_done && decide ((st.hist d).obj_count <
            (bounds st.run_type).2.2.1)) = true
      · rw [if_pos hloop]
        refine iff_of_false (by simp) ?_
        rintro (h | ⟨-, hdone, -⟩)
        · exact hcap h
        · obtain ⟨d, hd, hp⟩ := List.any_eq_true.mp hloop
          rcases hdone d hd with h1 | h1
          · simp [h1] at hp
          · simp [Nat.not_lt.mpr h1] at hp
      · rw [if_neg hloop]
        have hdone1 : ∀ d ∈ DOMAINS, (st.hist d).obj_done = true ∨
            (bounds st.run_type).2.2.1 ≤ (st.hist d).obj_count := by
          intro d hd
          by_cases h1 : (st.hist d).obj_done = true
          · exact Or.inl h1
          · right
            by_contra h2
            exact hloop (List.any_eq_true.mpr ⟨d, hd,
              by simp [h1, Nat.lt_of_not_le h2]⟩)
        by_cases hreq : 0 < (bounds st.run_type).2.2.2
        · simp only [if_pos hreq]
          by_cases hneed : 0 < srNeeded st (bounds st.run_type).2.2.2
          · rw [if_pos ⟨hreq, hneed⟩]
            have hex : ∃ d ∈ DOMAINS,
                (st.hist d).sr_count < (bounds st.run_type).2.2.2 := by
              by_contra hno
              push_neg at hno
              have hz : srNeeded st (bounds st.run_type).2.2.2 = 0 :=
                sumMapZero.mpr (fun d hd => Nat.sub_eq_zero_of_le (hno d hd))
              rw [hz] at hneed
              exact Nat.lt_irrefl 0 hneed
            by_cases hany : DOMAINS.any (fun d =>
                decide ((st.hist d).sr_count < (bounds st.run_type).2.2.2) &&
                  sr_available p d st) = true
            · rw [if_pos hany]
              refine iff_of_false (by simp) ?_
              rintro (h | ⟨-, -, -, hnone⟩)
              · exact hcap h
              · obtain ⟨d, hd, hp⟩ := List.any_eq_true.mp hany
                obtain ⟨hlt, hav⟩ := Bool.and_eq_true_iff.mp hp
                rw [hnone d hd (of_decide_eq_true hlt)] at hav
                exact Bool.false_ne_true hav
            · rw [if_neg hany]
              simp only [true_iff]
              refine Or.inr ⟨hall1, hdone1, hex, ?_⟩
              intro d hd hlt
              by_contra hav
              have hav1 : sr_available p d st = true := by
                cases hb : sr_available p d st
                · exact absurd hb hav
                · rfl
              exact hany (List.any_eq_true.mpr ⟨d, hd, by simp [hlt, hav1]⟩)
          · have hcond : ¬ (0 < (bounds st.run_type).2.2.2 ∧
                0 < srNeeded st (bounds st.run_type).2.2.2) := by
              rintro ⟨-, h2⟩
              exact hneed h2
            rw [if_neg hcond]
            have hnoex : ¬ ∃ d ∈ DOMAINS,
                (st.hist d).sr_count < (bounds st.run_type).2.2.2 := by
              rintro ⟨d, hd, hlt⟩
              have h1 : 0 < (bounds st.run_type).2.2.2 - (st.hist d).sr_count :=
                Nat.sub_pos_of_lt hlt
              have h2 : (bounds st.run_type).2.2.2 - (st.hist d).sr_count ≤
                  srNeeded st (bounds st.run_type).2.2.2 :=
                List.single_le_sum (fun _ _ => Nat.zero_le _) _
                  (List.mem_map_of_mem _ hd)
              exact hneed (Nat.lt_of_lt_of_le h1 h2)
            split_ifs
            · refine iff_of_false (by simp) ?_
              rintro (h | ⟨-, -, hex, -⟩)
              · exact hcap h
              · exact hnoex hex
            · refine iff_of_false (by simp) ?_
              rintro (h | ⟨-, -, hex, -⟩)
              · exact hcap h
              · exact hnoex hex
            · refine iff_of_false (by simp) ?_
              rintro (h | ⟨-, -, hex, -⟩)
              · exact hcap h
              · exact hnoex hex
        · have hcond : ¬ (0 < (bounds st.run_type).2.2.2 ∧
              0 < (if 0 < (bounds st.run_type).2.2.2 then
                srNeeded st (bounds st.run_type).2.2.2 else 0)) := by
            rintro ⟨h1, -⟩
            exact hreq h1
          rw [if_neg hcond]
          have hnoex : ¬ ∃ d ∈ DOMAINS,
              (st.hist d).sr_count < (bounds st.run_type).2.2.2 := by
            rintro ⟨d, hd, hlt⟩
            rw [Nat.eq_zero_of_not_pos hreq] at hlt
            exact Nat.not_lt_zero _ hlt
          split_ifs
          · refine iff_of_false (by simp) ?_
            rintro (h | ⟨-, -, hex, -⟩)
            · exact hcap h
            · exact hnoex hex
          · refine iff_of_false (by simp) ?_
            rintro (h | ⟨-, -, hex, -⟩)
            · exact hcap h
            · exact hnoex hex
          · refine iff_of_false (by simp) ?_
            rintro (h | ⟨-, -, hex, -⟩)
            · exact hcap h
            · exact hnoex hex

/-- Witness for the amended C2: at the exhausted-budget snapshot the
characterization yields a true stop decision. -/
theorem should_stop_characterization_witness :
    should_stop emptyShortPolicy stateBudgetExhausted = true :=
  (should_stop_characterization emptyShortPolicy stateBudgetExhausted).mpr
    (Or.inl (by norm_num [stateBudgetExhausted, stateAllTargetsMet, capFor, CAP_SHORT]))

theorem findSome?_spec {α β : Type} {f : α → Option β} {l : List α} {b : β}
    (h : l.findSome? f = some b) : ∃ a ∈ l, f a = some b := by
  induction l with
  | nil => simp [List.findSome?] at h
  | cons x xs ih =>
    rw [List.findSome?] at h
    cases hx : f x with
    | some v =>
      rw [hx] at h
      dsimp only at h
      cases h
      exact ⟨x, List.mem_cons_self x xs, hx⟩
    | none =>
      rw [hx] at h
      dsimp only at h
      obtain ⟨a, ha, hfa⟩ := ih h
      exact ⟨a, List.mem_cons_of_mem _ ha, hfa⟩

theorem rngChoice_mem {pick : List Item → ℕ} {l : List Item} {it : Item}
    (h : rngChoice pick l = some it) : it ∈ l :=
  List.get?_mem h

theorem objIndexPool_spec {items : List Item} {d : String} {lvl : ℤ} {it : Item}
    (h : it ∈ objIndexPool items d lvl) :
    it.domain = d ∧ (it.type = "MCQ" ∨ it.type = "SJT") := by
  have := (List.mem_filter.mp h).2
  have hp := of_decide_eq_true this
  exact ⟨hp.1, hp.2.1⟩

theorem srIndexPool_spec {items : List Item} {d : String} {it : Item}
    (h : it ∈ srIndexPool items d) : it.domain = d ∧ it.type = "SR" := by
  have := (List.mem_filter.mp h).2
  exact of_decide_eq_true this

theorem openIndexPool_spec {items : List Item} {d : String} {lvl : ℤ} {it : Item}
    (h : it ∈ openIndexPool items d lvl) : it.domain = d ∧ it.type = "OPEN" := by
  have := (List.mem_filter.mp h).2
  have hp := of_decide_eq_true this
  exact ⟨hp.1, hp.2.1⟩

theorem mem_filter_unseen {pool : List Item} {st : PolicyState} {it : Item}
    (h : it ∈ pool.filter (fun it => isUnseen it st)) :
    it ∈ pool ∧ isUnseen it st = true :=
  List.mem_filter.mp h

theorem objective_item_spec {p : Policy} {d : String} {st : PolicyState}
    {pick : List Item → ℕ} {it : Item} (h : objective_item p d st pick = some it) :
    isUnseen it st = true ∧ it.domain = d ∧ (it.type = "MCQ" ∨ it.type = "SJT") := by
  obtain ⟨lvl, -, hc⟩ := findSome?_spec h
  obtain ⟨hin, hu⟩ := mem_filter_unseen (rngChoice_mem hc)
  exact ⟨hu, (objIndexPool_spec hin).1, (objIndexPool_spec hin).2⟩

theorem serve_objective_spec {p : Policy} {doms : List String} {st : PolicyState}
    {pick : List Item → ℕ} {it : Item} (h : serve_objective p doms st pick = some it) :
    isUnseen it st = true ∧ (it.type = "MCQ" ∨ it.type = "SJT") := by
  obtain ⟨d, -, hd⟩ := findSome?_spec h
  exact ⟨(objective_item_spec hd).1, (objective_item_spec hd).2.2⟩

theorem fallback_objective_spec {p : Policy} {st : PolicyState}
    {pick : List Item → ℕ} {it : Item} (h : fallback_objective p st pick = some it) :
    isUnseen it st = true ∧ (it.type = "MCQ" ∨ it.type = "SJT") := by
  obtain ⟨d, -, hd⟩ := findSome?_spec h
  obtain ⟨lvl, -, hc⟩ := findSome?_spec hd
  obtain ⟨hin, hu⟩ := mem_filter_unseen (rngChoice_mem hc)
  exact ⟨hu, (objIndexPool_spec hin).2⟩

theorem pick_sr_item_spec {p : Policy} {d : String} {st : PolicyState}
    {pick : List Item → ℕ} {it : Item} (h : pick_sr_item p d st pick = some it) :
    isUnseen it st = true ∧ it.type = "SR" := by
  obtain ⟨hin, hu⟩ := mem_filter_unseen (rngChoice_mem h)
  exact ⟨hu, (srIndexPool_spec hin).2⟩

theorem select_open_item_spec {p : Policy} {d : String} {preferred : ℤ}
    {st : PolicyState} {peek : Bool} {pick : List Item → ℕ} {it : Item} {lvl : ℤ}
    (h : select_open_item p d preferred st peek pick = some (it, lvl)) :
    isUnseen it st = true ∧ it.domain = d ∧ it.type = "OPEN" := by
  obtain ⟨l, -, hc⟩ := findSome?_spec h
  obtain ⟨v, hbase, hpair⟩ := Option.map_eq_some'.mp hc
  have h1 : v = it := congrArg Prod.fst hpair
  have hv : v ∈ (openIndexPool p.items d l).filter (fun x => isUnseen x st) := by
    cases peek with
    | true =>
      simp only [if_pos rfl] at hbase
      exact List.mem_of_mem_head? hbase
    | false =>
      simp only [Bool.false_eq_true, if_neg] at hbase
      exact rngChoice_mem hbase
  obtain ⟨hin, hu⟩ := mem_filter_unseen hv
  exact ⟨h1 ▸ hu, h1 ▸ (openIndexPool_spec hin).1, h1 ▸ (openIndexPool_spec hin).2⟩

theorem open_candidate_for_spec {p : Policy} {st : PolicyState} {d : String}
    {e : OpenCand} (h : open_candidate_for p st d = some e) :
    e.1 = d ∧ (st.hist d).open_count < 2 := by
  simp only [open_candidate_for] at h
  by_cases h2 : 2 ≤ (st.hist d).open_count
  · rw [if_pos h2] at h
    cases h
  · rw [if_neg h2] at h
    refine ⟨?_, Nat.lt_of_not_le h2⟩
    split at h
    · cases h
    · split at h
      · cases h
      · cases h
        rfl

theorem open_candidates_guards {p : Policy} {st : PolicyState} {obj_min : ℕ}
    {e : OpenCand} (he : e ∈ open_candidates p st obj_min) :
    p.run_type = RunType.long ∧
    (st.last_item_type = some "MCQ" ∨ st.last_item_type = some "SJT") ∧
    (st.hist e.1).open_count < 2 := by
  simp only [open_candidates] at he
  split at he
  · cases he
  · split at he
    · cases he
    · split at he
      · cases he
      · rename_i hguard hmin hlast
        obtain ⟨d, -, hd⟩ := List.mem_filterMap.mp he
        obtain ⟨h1, h2⟩ := open_candidate_for_spec hd
        push_neg at hguard hlast
        exact ⟨hguard.1, by
          rcases Decidable.em (st.last_item_type = some "MCQ") with h | h
          · exact Or.inl h
          · exact Or.inr (hlast h)
          , h1 ▸ h2⟩

theorem maybe_serve_open_spec {p : Policy} {st : PolicyState} {obj_min srn : ℕ}
    {pick : List Item → ℕ} {it : Item}
    (h : maybe_serve_open p st obj_min srn pick = some it) :
    isUnseen it st = true ∧ it.type = "OPEN" ∧
    ∃ e ∈ open_candidates p st obj_min, e.1 = it.domain := by
  simp only [maybe_serve_open] at h
  split at h
  · cases h
  · split at h
    · cases h
    · cases hhead : (List.insertionSort
          (fun a b => lex4 (openCandKey st a) (openCandKey st b))
          (open_candidates p st obj_min)).head? with
      | none => rw [hhead] at h; cases h
      | some e =>
        rw [hhead] at h
        obtain ⟨dom, item0, se0, cnt0, tgt, srv⟩ := e
        dsimp only at h
        cases hsel : select_open_item p dom tgt st false pick with
        | none => rw [hsel] at h; cases h
        | some pr =>
          obtain ⟨item1, srv1⟩ := pr
          rw [hsel] at h
          dsimp only at h
          cases h
          obtain ⟨hu, hdom, hty⟩ := select_open_item_spec hsel
          refine ⟨hu, hty, (dom, item0, se0, cnt0, tgt, srv), ?_, hdom.symm⟩
          exact (List.perm_insertionSort _ _).mem_iff.mp
            (List.mem_of_mem_head? hhead)

theorem next_item_tail_sources {p : Policy} {st : PolicyState}
    {pick : List Item → ℕ} {obj_min srn : ℕ} {sb sc : List String} {it : Item}
    (h : next_item_tail p st pick obj_min srn sb sc = some it) :
    maybe_serve_open p st obj_min srn pick = some it ∨
    (∃ doms, serve_objective p doms st pick = some it) ∨
    fallback_objective p st pick = some it := by
  simp only [next_item_tail] at h
  split at h
  · rename_i hm
    cases h
    exact Or.inl hm
  · split at h
    · rename_i hb
      cases h
      by_cases hsb : sb ≠ []
      · rw [if_pos hsb] at hb
        exact Or.inr (Or.inl ⟨_, hb⟩)
      · rw [if_neg hsb] at hb
        cases hb
    · split at h
      · rename_i hc
        cases h
        by_cases hsc : sc ≠ []
        · rw [if_pos hsc] at hc
          exact Or.inr (Or.inl ⟨_, hc⟩)
        · rw [if_neg hsc] at hc
          cases hc
      · exact Or.inr (Or.inr h)

theorem next_item_min_stage_sources {p : Policy} {st : PolicyState}
    {pick : List Item → ℕ} {doms : List String} {last : Bool} {it : Item}
    {flag : Bool} (h : next_item_min_stage p st pick doms last = (some it, flag)) :
    serve_objective p doms st pick = some it := by
  unfold next_item_min_stage at h
  split at h
  · rename_i x heq
    injection h with h1 h2
    injection h1 with h1
    exact h1 ▸ heq
  · injection h with h1 h2
    exact Option.noConfusion h1

theorem next_item_sr_stage_sources {p : Policy} {st : PolicyState}
    {pick : List Item → ℕ} {obj_min sr_required sr_needed : ℕ} {sr_only : Bool}
    {sb sc : List String} {last : Bool} {it : Item} {flag : Bool}
    (h : next_item_sr_stage p st pick obj_min sr_required sr_needed sr_only
      sb sc last = (some it, flag)) :
    (∃ dom, pick_sr_item p dom st pick = some it) ∨
    next_item_tail p st pick obj_min sr_needed sb sc = some it := by
  unfold next_item_sr_stage at h
  cases hd : sr_domain p st obj_min sr_required with
  | none =>
    rw [hd] at h
    dsimp only at h
    by_cases ho : sr_only = true
    · rw [if_pos ho] at h
      injection h with h1 h2
      exact Option.noConfusion h1
    · rw [if_neg ho] at h
      injection h with h1 h2
      exact Or.inr h1
  | some dom =>
    rw [hd] at h
    dsimp only at h
    by_cases hc : (sr_only || (!last || (sb.isEmpty && sc.isEmpty))) = true
    · rw [if_pos hc] at h
      cases hp : pick_sr_item p dom st pick with
      | some x =>
        rw [hp] at h
        dsimp only at h
        injection h with h1 h2
        injection h1 with h1
        exact Or.inl ⟨dom, h1 ▸ hp⟩
      | none =>
        rw [hp] at h
        dsimp only at h
        injection h with h1 h2
        exact Or.inr h1
    · rw [if_neg hc] at h
      injection h with h1 h2
      exact Or.inr h1

theorem next_item_sources {p : Policy} {st : PolicyState} {last : Bool}
    {pick : List Item → ℕ} {it : Item} {flag : Bool}
    (h : next_item p st last pick = (some it, flag)) :
    (∃ doms, serve_objective p doms st pick = some it) ∨
    (∃ dom, pick_sr_item p dom st pick = some it) ∨
    (∃ srn, maybe_serve_open p st (bounds st.run_type).2.1 srn pick = some it) ∨
    fallback_objective p st pick = some it := by
  simp only [next_item] at h
  split at h
  · simp at h
  · split at h
    · exact Or.inl ⟨_, next_item_min_stage_sources h⟩
    · split at h
      · split at h
        · rcases next_item_sr_stage_sources h with ⟨dom, hs⟩ | ht
          · exact Or.inr (Or.inl ⟨dom, hs⟩)
          · rcases next_item_tail_sources ht with hm | hso | hf
            · exact Or.inr (Or.inr (Or.inl ⟨_, hm⟩))
            · exact Or.inl hso
            · exact Or.inr (Or.inr (Or.inr hf))
        · injection h with h1 h2
          rcases next_item_tail_sources h1 with hm | hso | hf
          · exact Or.inr (Or.inr (Or.inl ⟨_, hm⟩))
          · exact Or.inl hso
          · exact Or.inr (Or.inr (Or.inr hf))
      · split at h
        · rcases next_item_sr_stage_sources h with ⟨dom, hs⟩ | ht
          · exact Or.inr (Or.inl ⟨dom, hs⟩)
          · rcases next_item_tail_sources ht with hm | hso | hf
            · exact Or.inr (Or.inr (Or.inl ⟨_, hm⟩))
            · exact Or.inl hso
            · exact Or.inr (Or.inr (Or.inr hf))
        · injection h with h1 h2
          rcases next_item_tail_sources h1 with hm | hso | hf
          · exact Or.inr (Or.inr (Or.inl ⟨_, hm⟩))
          · exact Or.inl hso
          · exact Or.inr (Or.inr (Or.inr hf))

/-- C10: whenever the policy's `next_item` returns an OPEN (free-text) item,
the run is long, the most recently served item was objective (MCQ or SJT),
and the served domain has answered fewer than two OPEN items: every other
stage of `next_item` serves only MCQ/SJT/SR items, and `_open_candidates` is
empty unless those guards hold. -/
theorem open_served_only_after_objective_and_under_quota {p : Policy}
    {st : PolicyState} {last : Bool} {pick : List Item → ℕ} {it : Item}
    {flag : Bool} (h : next_item p st last pick = (some it, flag))
    (ho : it.type = "OPEN") :
    p.run_type = RunType.long ∧
    (st.last_item_type = some "MCQ" ∨ st.last_item_type = some "SJT") ∧
    (st.hist it.domain).open_count < 2 := by
  rcases next_item_sources h with ⟨doms, hs⟩ | ⟨dom, hs⟩ | ⟨srn, hs⟩ | hs
  · rcases (serve_objective_spec hs).2 with h1 | h1 <;> rw [ho] at h1 <;>
      exact absurd h1 (by decide)
  · have h1 := (pick_sr_item_spec hs).2
    rw [ho] at h1
    exact absurd h1 (by decide)
  · obtain ⟨-, -, e, he, hdom⟩ := maybe_serve_open_spec hs
    obtain ⟨hlong, hlast, hcount⟩ := open_candidates_guards he
    exact ⟨hlong, hlast, hdom ▸ hcount⟩
  · rcases (fallback_objective_spec hs).2 with h1 | h1 <;> rw [ho] at h1 <;>
      exact absurd h1 (by decide)

theorem next_item_unseen {p : Policy} {st : PolicyState} {last : Bool}
    {pick : List Item → ℕ} {it : Item} {flag : Bool}
    (h : next_item p st last pick = (some it, flag)) : isUnseen it st = true := by
  rcases next_item_sources h with ⟨doms, hs⟩ | ⟨dom, hs⟩ | ⟨srn, hs⟩ | hs
  · exact (serve_objective_spec hs).1
  · exact (pick_sr_item_spec hs).1
  · exact (maybe_serve_open_spec hs).1
  · exact (fallback_objective_spec hs).1

theorem isUnseen_spec {it : Item} {st : PolicyState} (h : isUnseen it st = true) :
    it.id ∉ st.asked ∧
    (∀ g, it.variant_group = some g → g ≠ "" → g ∉ st.seen_variant_groups) := by
  unfold isUnseen at h
  by_cases hc : st.asked.contains it.id
  · rw [if_pos hc] at h
    cases h
  · rw [if_neg hc] at h
    refine ⟨by simpa using hc, ?_⟩
    intro g hg hne hmem
    rw [hg] at h
    dsimp only at h
    have hb : (g != "" && st.seen_variant_groups.contains g) = true := by
      simp [hne, hmem]
    rw [hb] at h
    cases h

theorem mem_addStr_self (s : String) (l : List String) : s ∈ addStr s l := by
  unfold addStr
  split
  · simpa using (by assumption : l.contains s = true)
  · exact List.mem_cons_self s l

theorem mem_addStr_of_mem {x : String} {l : List String} (s : String)
    (h : x ∈ l) : x ∈ addStr s l := by
  unfold addStr
  split
  · exact h
  · exact List.mem_cons_of_mem s h

theorem mem_addVG_of_mem {x : String} {l : List String} (vg : Option String)
    (h : x ∈ l) : x ∈ addVG vg l := by
  unfold addVG
  cases vg with
  | none => exact h
  | some v =>
    dsimp only
    split
    · exact mem_addStr_of_mem v h
    · exact h

theorem mem_addVG_self {g : String} (l : List String) (hne : g ≠ "") :
    g ∈ addVG (some g) l := by
  unfold addVG
  dsimp only
  rw [if_pos (by simpa using hne)]
  exact mem_addStr_self g l

theorem reachable_serve_invariant {p : Policy} {tr : ServeTrace}
    (h : ReachableServe p tr) :
    tr.served.Pairwise (fun a b => a.id ≠ b.id ∧ ¬ sharesVG a b) ∧
    (∀ a ∈ tr.served, a.id ∈ tr.asked) ∧
    (∀ a ∈ tr.served, ∀ g, a.variant_group = some g → g ≠ "" → g ∈ tr.seenVGs) := by
  induction h with
  | init => exact ⟨List.Pairwise.nil, by simp, by simp⟩
  | step tr st lastSr pick it flag hr hsa hsv hn ih =>
    obtain ⟨hpw, hid, hvg⟩ := ih
    obtain ⟨hnotasked, hnotvg⟩ := isUnseen_spec (next_item_unseen hn)
    rw [hsa] at hnotasked
    refine ⟨?_, ?_, ?_⟩
    · rw [List.pairwise_append]
      refine ⟨hpw, List.pairwise_singleton _ _, ?_⟩
      intro a ha b hb
      rw [List.mem_singleton] at hb
      subst hb
      constructor
      · intro heq
        exact hnotasked (heq ▸ hid a ha)
      · rintro ⟨g, hgne, hga, hgb⟩
        exact hnotvg g hgb hgne (hsv ▸ hvg a ha g hga hgne)
    · intro a ha
      rcases List.mem_append.mp ha with ha | ha
      · exact mem_addStr_of_mem _ (hid a ha)
      · rw [List.mem_singleton] at ha
        subst ha
        exact mem_addStr_self _ _
    · intro a ha g hg hne
      rcases List.mem_append.mp ha with ha | ha
      · exact mem_addVG_of_mem _ (hvg a ha g hg hne)
      · rw [List.mem_singleton] at ha
        subst ha
        rw [hg]
        exact mem_addVG_self _ hne

/-- C6: along any serve-answer session trace, the served items are pairwise
distinct and no two of them carry the same (truthy) variant-group tag: every
selection path of the policy filters by `_is_unseen`, and the session records
each served item's id and variant group before the next selection. -/
theorem served_items_distinct_and_variant_groups_unique {p : Policy}
    {tr : ServeTrace} (h : ReachableServe p tr) :
    tr.served.Pairwise (fun a b => a.id ≠ b.id ∧ ¬ sharesVG a b) :=
  (reachable_serve_invariant h).1

theorem next_item_openOnly_eval :
    next_item openOnlyPolicy stateOpenReady false (fun _ => 0) =
      (some openOnlyItem, false) := by
  have hgse : (OPEN_GATE1_SE_MAX < (0 : ℝ)) = False := by
    norm_num [OPEN_GATE1_SE_MAX]
  have hpick : pick_open_level 0 = 0 := by
    norm_num [pick_open_level, openLevels]
  have hclamp : openClampLevel (0 : ℤ) = 0 := by
    norm_num [openClampLevel]
  simp [next_item, bounds, capFor, CAP_LONG, OBJ_MIN_LONG, OBJ_MAX_LONG,
    SR_PER_DOMAIN_LONG, DOMAINS, stateOpenReady, histOpenReady, histOpenBlocked,
    openOnlyPolicy, openOnlyItem, defaultDomainHistory, srNeeded, next_item_tail,
    maybe_serve_open, open_candidates, open_candidate_for, OPEN_GATE1_MIN_OBJ,
    OPEN_ENABLED_LONG, hgse, hpick, hclamp, select_open_item, openLevelOrder,
    lex2, openLevels, openIndexPool, isUnseen, rngChoice, List.findSome?,
    List.insertionSort, List.orderedInsert, openCandKey]

/-- Witness for C10 at a concrete long-run snapshot: the policy serves the
OPEN item, the previous item was objective, and the served domain is under
its OPEN quota. -/
theorem open_served_only_after_objective_and_under_quota_witness :
    openOnlyPolicy.run_type = RunType.long ∧
    (stateOpenReady.last_item_type = some "MCQ" ∨
      stateOpenReady.last_item_type = some "SJT") ∧
    (stateOpenReady.hist openOnlyItem.domain).open_count < 2 :=
  open_served_only_after_objective_and_under_quota next_item_openOnly_eval rfl

/-- Witness for C6 at a concrete one-step session trace in which the policy
actually served an item. -/
theorem served_items_distinct_and_variant_groups_unique_witness :
    (ServeTrace.mk (addStr openOnlyItem.id [])
      (addVG openOnlyItem.variant_group []) ([] ++ [openOnlyItem])).served.Pairwise
      (fun a b => a.id ≠ b.id ∧ ¬ sharesVG a b) :=
  served_items_distinct_and_variant_groups_unique
    (ReachableServe.step ⟨[], [], []⟩ stateOpenReady false (fun _ => 0)
      openOnlyItem false ReachableServe.init rfl rfl next_item_openOnly_eval)

end Skill
